import Mathlib

/-!
# CASIOClient: session manager, slot table and property translator

A shallow embedding of `source/win32/CASIOClient.cpp`.

Conventions of the embedding:

* `long` and `int` values are mathematical integers (`Int`); `unsigned long`
  and bit masks are `Nat`.  Signed overflow and out-of-bounds array accesses,
  which are undefined behaviour in the source language, are explicit faults
  (`Except Fault`).
* A `CASIO_Device` is a pointer: `none` is `nullptr`, `some h` is the address
  `h` of a heap object.  The heap maps the addresses of the live
  `_CASIO_Device` objects to their contents; `new` hands out an address that
  is not in use, `delete` removes the object.
* The driver and COM are outside the library.  Each entry point receives the
  answers that the driver gives during the call as an argument.
* Log output (the calls of `logMessage`, `logFormat` and `logFormatDev` made
  by the session manager) is not part of the modelled state.  The event router
  returns what it does to the outside as a list of effects: the calls of the
  client callback, the log calls of `onAsioMessage` among them, and the calls
  of the driver's `outputReady()`.
* Constants of headers that are not part of the translation unit (the vendor
  sample-type codes, the time-info flag bits, the message selectors, the
  client time flags) are parameters.
-/

namespace CASIOClient

/-! ## Globals and the data model -/

/-- Number of trampoline sets and of slot-table entries: MAX_OPEN_DEVICES. -/
abbrev MAX_OPEN_DEVICES : Nat := 8

/-- Upper bound of the clamped input channel count: MAX_INPUT_CHANNELS. -/
def MAX_INPUT_CHANNELS : Int := 64

/-- Upper bound of the clamped output channel count: MAX_OUTPUT_CHANNELS. -/
def MAX_OUTPUT_CHANNELS : Int := 64

/-- Largest value of the 32-bit `int` / `long` of the win32 target. -/
def INT_MAX : Int := 2147483647

/-- Smallest value of the 32-bit `int` / `long` of the win32 target. -/
def INT_MIN : Int := -2147483648

/-- Undefined behaviour of the source made explicit. -/
inductive Fault where
  | outOfBounds
  | signedOverflow
  | invalidHandle
  deriving DecidableEq

/-- A data pointer (`void *`); `0` is `NULL`. -/
abbrev Ptr := Nat

/-- Address of a heap-allocated `_CASIO_Device`. -/
abbrev Handle := Nat

/-- The pointer type `CASIO_Device`; `none` is `nullptr`. -/
abbrev CASIO_Device := Option Handle

/-- The vendor boolean `ASIOTrue`. -/
def ASIOTrue : Int := 1

/-- The vendor boolean `ASIOFalse`. -/
def ASIOFalse : Int := 0

/-- One entry of `bufferInfos`: direction, channel number and the addresses of
the two halves of the double buffer. -/
structure ASIOBufferInfo where
  isInput : Int
  channelNum : Int
  buffers : Fin 2 → Ptr

/-- One entry of `channelInfos`. -/
structure ASIOChannelInfo where
  channel : Int
  isInput : Int
  isActive : Int
  channelGroup : Int
  type : Int
  name : String

/-- The `ASIOCallbacks` record.  The four entry points of trampoline set `x`
are determined by `x`, the index they are compiled against. -/
structure ASIOCallbacks where
  slot : Nat
  deriving DecidableEq

/-- The anonymous `buffer` member of `_CASIO_Device`. -/
structure BufferSizes where
  minSize : Int
  maxSize : Int
  prefSize : Int
  granularity : Int
  currentSize : Int
  deriving DecidableEq

/-- One element of `bufferPtrs`: the destructured buffer addresses of one half. -/
structure BufferPtrs where
  inputs : Nat → Ptr
  outputs : Nat → Ptr

/-- The per-device record `_CASIO_Device`.  `sampleRate` is the bit pattern of
the `double`, which the library only stores and hands back.  The member arrays
are functions of the index; the clamped channel counts keep every index the
library uses below the declared sizes (128 for `bufferInfos` and
`channelInfos`, 64 for `inputs` and `outputs`). -/
structure _CASIO_Device where
  id : Nat
  asioDriver : Nat
  userData : Ptr
  name : String
  driverVersion : Int
  numInputs : Int
  numOutputs : Int
  buffer : BufferSizes
  sampleRate : Nat
  supportsOutputReady : Bool
  inputLatency : Int
  outputLatency : Int
  bufferInfos : Nat → ASIOBufferInfo
  channelInfos : Nat → ASIOChannelInfo
  callbacks : ASIOCallbacks
  bufferPtrs : Fin 2 → BufferPtrs
  started : Bool
  globalIndex : Int

/-- The process-wide state: the counter `globalNumDevices`, the table
`globalDevices[MAX_OPEN_DEVICES]`, and the heap of live device records.  The
allocator hands out `nextHandle`, an address no live record has, and moves on;
an address is not handed out twice. -/
structure World where
  globalNumDevices : Int
  globalDevices : Fin MAX_OPEN_DEVICES → CASIO_Device
  heap : Handle → Option _CASIO_Device
  nextHandle : Handle

/-- State at program start: static storage is zero-initialised and nothing is
allocated. -/
def World.initial : World :=
  { globalNumDevices := 0
    globalDevices := fun _ => none
    heap := fun _ => none
    nextHandle := 1 }

/-- The table `globalCallbacks`: entry `x` is the trampoline set compiled
against index `x`. -/
def globalCallbacks (x : Fin MAX_OPEN_DEVICES) : ASIOCallbacks :=
  { slot := x.val }

/-- What COM and the driver answer during one `CASIO_OpenDevice` call, and the
indeterminate contents `uninit` of the freshly allocated record. -/
structure OpenEnv where
  coCreateInstanceOk : Bool
  driver : Nat
  uninit : _CASIO_Device
  driverName : String
  driverVersion : Int
  initOk : Bool
  numInputs : Int
  numOutputs : Int
  minSize : Int
  maxSize : Int
  prefSize : Int
  granularity : Int
  sampleRate : Nat
  outputReadyOk : Bool
  createBuffersOk : Bool
  driverBuffers : Nat → Fin 2 → Ptr
  channelInfoOk : Nat → Bool
  channelInfo : Nat → ASIOChannelInfo
  latenciesOk : Bool
  inputLatency : Int
  outputLatency : Int

/-! ## CASIO_OpenDevice -/

/-- The first loop of `CASIO_OpenDevice` (create_asio_buffers): entries
`0 .. total-1` of `bufferInfos` are set to input channel `i` below `numInputs`
and to output channel `i - numInputs` from there on, with null buffers. -/
def initBufferInfos (numInputs : Int) (total : Nat)
    (infos : Nat → ASIOBufferInfo) : Nat → ASIOBufferInfo :=
  (List.range total).foldl
    (fun (acc : Nat → ASIOBufferInfo) (i : Nat) =>
      Function.update acc i
        (if (i : Int) < numInputs then
          { isInput := ASIOTrue, channelNum := (i : Int), buffers := fun _ => 0 }
        else
          { isInput := ASIOFalse, channelNum := (i : Int) - numInputs, buffers := fun _ => 0 }))
    infos

/-- Effect of a successful `createBuffers` on the array it is handed: the
driver stores the two buffer addresses of each of the `total` entries. -/
def createBuffers (driverBuffers : Nat → Fin 2 → Ptr) (total : Nat)
    (infos : Nat → ASIOBufferInfo) : Nat → ASIOBufferInfo :=
  fun i => if i < total then { infos i with buffers := driverBuffers i } else infos i

/-- The channel-info loop: entry `i` gets the channel number and direction of
`bufferInfos[i]`, the driver fills in the rest. -/
def fillChannelInfos (answers : Nat → ASIOChannelInfo) (infos : Nat → ASIOBufferInfo)
    (total : Nat) (chans : Nat → ASIOChannelInfo) : Nat → ASIOChannelInfo :=
  (List.range total).foldl
    (fun (acc : Nat → ASIOChannelInfo) (i : Nat) =>
      Function.update acc i
        { answers i with channel := (infos i).channelNum, isInput := (infos i).isInput })
    chans

/-- The destructuring loop: for both halves, `inputs[i]` is the buffer of
entry `i` below `numInputs`, `outputs[i - numInputs]` the buffer of entry `i`
from there on. -/
def destructure (numInputs : Int) (total : Nat) (infos : Nat → ASIOBufferInfo)
    (ptrs : Fin 2 → BufferPtrs) : Fin 2 → BufferPtrs :=
  (List.range total).foldl
    (fun (acc : Fin 2 → BufferPtrs) (i : Nat) =>
      if (i : Int) < numInputs then
        fun h => { acc h with inputs := Function.update (acc h).inputs i ((infos i).buffers h) }
      else
        fun h =>
          { acc h with
            outputs :=
              Function.update (acc h).outputs ((i : Int) - numInputs).toNat ((infos i).buffers h) })
    ptrs

/-- The label `errorExit` of `CASIO_OpenDevice`: the out-parameter is set to
`nullptr`, the driver is released and the record is deleted; the status is -1.
Nothing else is undone. -/
def errorExit (w : World) : Except Fault (World × Int × CASIO_Device) :=
  .ok (w, -1, none)

/-- The entry point `CASIO_OpenDevice(id, userData, outDevice)`.  The result is
the new state, the returned status and the value stored in `*outDevice`. -/
def CASIO_OpenDevice (id : Nat) (userData : Ptr) (env : OpenEnv) (w : World) :
    Except Fault (World × Int × CASIO_Device) :=
  if env.coCreateInstanceOk then
    -- auto ret = new _CASIO_Device;
    let h := w.nextHandle
    -- ret->globalIndex = globalNumDevices++;
    let globalIndex := w.globalNumDevices
    if globalIndex + 1 > INT_MAX then .error .signedOverflow else
    let w1 : World := { w with globalNumDevices := globalIndex + 1, nextHandle := h + 1 }
    let ret0 : _CASIO_Device :=
      { env.uninit with
        started := false
        id := id
        asioDriver := env.driver
        userData := userData
        globalIndex := globalIndex
        name := env.driverName
        driverVersion := env.driverVersion }
    if !env.initOk then errorExit w1 else
    -- channel counts, clamped
    let numInputs := min env.numInputs MAX_INPUT_CHANNELS
    let numOutputs := min env.numOutputs MAX_OUTPUT_CHANNELS
    let ret1 : _CASIO_Device :=
      { ret0 with
        numInputs := numInputs
        numOutputs := numOutputs
        buffer :=
          { ret0.buffer with
            minSize := env.minSize
            maxSize := env.maxSize
            prefSize := env.prefSize
            granularity := env.granularity }
        sampleRate := env.sampleRate
        supportsOutputReady := env.outputReadyOk }
    -- the loop bound ret->numInputs + ret->numOutputs
    if numInputs + numOutputs < INT_MIN then .error .signedOverflow else
    let total := (numInputs + numOutputs).toNat
    let ret2 : _CASIO_Device :=
      { ret1 with bufferInfos := initBufferInfos numInputs total ret1.bufferInfos }
    -- ret->callbacks = globalCallbacks[ret->globalIndex];
    -- globalDevices[ret->globalIndex] = ret;
    if hidx : 0 ≤ globalIndex ∧ globalIndex < (MAX_OPEN_DEVICES : Int) then
      let slot : Fin MAX_OPEN_DEVICES := ⟨globalIndex.toNat, by omega⟩
      let w2 : World := { w1 with globalDevices := Function.update w1.globalDevices slot (some h) }
      let ret3 : _CASIO_Device :=
        { ret2 with
          callbacks := globalCallbacks slot
          buffer := { ret2.buffer with currentSize := ret2.buffer.prefSize } }
      if env.createBuffersOk then
        let ret4 : _CASIO_Device :=
          { ret3 with bufferInfos := createBuffers env.driverBuffers total ret3.bufferInfos }
        if (List.range total).all env.channelInfoOk then
          let ret5 : _CASIO_Device :=
            { ret4 with
              channelInfos :=
                fillChannelInfos env.channelInfo ret4.bufferInfos total ret4.channelInfos
              bufferPtrs := destructure numInputs total ret4.bufferInfos ret4.bufferPtrs }
          if env.latenciesOk then
            let ret6 : _CASIO_Device :=
              { ret5 with
                inputLatency := env.inputLatency
                outputLatency := env.outputLatency }
            .ok ({ w2 with heap := Function.update w2.heap h (some ret6) }, 0, some h)
          else errorExit w2
        else errorExit w2
      else errorExit w2
    else .error .outOfBounds
  else
    .ok (w, -1, none)

/-! ## CASIO_CloseDevice -/

/-- The entry point `CASIO_CloseDevice(device)`: a null handle is a no-op;
otherwise the buffers are disposed, the driver is released, the table entry at
the record's `globalIndex` is cleared and the record is deleted.  The status
is always 0. -/
def CASIO_CloseDevice (device : CASIO_Device) (w : World) : Except Fault (World × Int) :=
  match device with
  | none => .ok (w, 0)
  | some h =>
    match w.heap h with
    | none => .error .invalidHandle
    | some d =>
      if hidx : 0 ≤ d.globalIndex ∧ d.globalIndex < (MAX_OPEN_DEVICES : Int) then
        let slot : Fin MAX_OPEN_DEVICES := ⟨d.globalIndex.toNat, by omega⟩
        .ok ({ w with
                globalDevices := Function.update w.globalDevices slot none
                heap := Function.update w.heap h none }, 0)
      else .error .outOfBounds

/-! ## CASIO_Start and CASIO_Stop -/

/-- The entry point `CASIO_Start(device)` on the record the handle points to.
`driverStart` tells whether the driver's `start()` answers `ASE_OK`; the driver
is asked only when the device is not started.  The result is the record after
the call and the returned status. -/
def CASIO_Start (device : _CASIO_Device) (driverStart : Bool) : _CASIO_Device × Int :=
  if !device.started then
    if driverStart then
      ({ device with started := true }, 0)
    else (device, -1)
  else (device, -1)

/-- The entry point `CASIO_Stop(device)` on the record the handle points to.
`driverStop` tells whether the driver's `stop()` answers `ASE_OK`; the driver
is asked only when the device is started. -/
def CASIO_Stop (device : _CASIO_Device) (driverStop : Bool) : _CASIO_Device × Int :=
  if device.started then
    if driverStop then
      ({ device with started := false }, 0)
    else (device, -1)
  else (device, -1)

/-! ## Format and property translator -/

/-- The vendor sample-type codes named by `getSampleSize`.  Their values come
from the vendor header, which is not part of the translation unit. -/
structure ASIOSampleTypes where
  ASIOSTInt16MSB : Int
  ASIOSTInt24MSB : Int
  ASIOSTInt32MSB : Int
  ASIOSTFloat32MSB : Int
  ASIOSTFloat64MSB : Int
  ASIOSTInt32MSB16 : Int
  ASIOSTInt32MSB18 : Int
  ASIOSTInt32MSB20 : Int
  ASIOSTInt32MSB24 : Int
  ASIOSTInt16LSB : Int
  ASIOSTInt24LSB : Int
  ASIOSTInt32LSB : Int
  ASIOSTFloat32LSB : Int
  ASIOSTFloat64LSB : Int
  ASIOSTInt32LSB16 : Int
  ASIOSTInt32LSB18 : Int
  ASIOSTInt32LSB20 : Int
  ASIOSTInt32LSB24 : Int
  deriving DecidableEq

/-- The sixteen-bit integer codes. -/
def ASIOSampleTypes.int16 (c : ASIOSampleTypes) : List Int :=
  [c.ASIOSTInt16LSB, c.ASIOSTInt16MSB]

/-- The twenty-four-bit integer codes. -/
def ASIOSampleTypes.int24 (c : ASIOSampleTypes) : List Int :=
  [c.ASIOSTInt24LSB, c.ASIOSTInt24MSB]

/-- The codes of the four-byte encodings: thirty-two-bit integers, the
thirty-two-bit containers with 16/18/20/24-bit alignment, and the
thirty-two-bit floats. -/
def ASIOSampleTypes.word32 (c : ASIOSampleTypes) : List Int :=
  [c.ASIOSTInt32LSB, c.ASIOSTInt32MSB, c.ASIOSTFloat32LSB, c.ASIOSTFloat32MSB,
   c.ASIOSTInt32LSB16, c.ASIOSTInt32LSB18, c.ASIOSTInt32LSB20, c.ASIOSTInt32LSB24,
   c.ASIOSTInt32MSB16, c.ASIOSTInt32MSB18, c.ASIOSTInt32MSB20, c.ASIOSTInt32MSB24]

/-- The sixty-four-bit float codes. -/
def ASIOSampleTypes.float64 (c : ASIOSampleTypes) : List Int :=
  [c.ASIOSTFloat64LSB, c.ASIOSTFloat64MSB]

/-- Every case label of the `switch` in `getSampleSize`, in source order. -/
def ASIOSampleTypes.labels (c : ASIOSampleTypes) : List Int :=
  c.int16 ++ c.int24 ++ c.word32 ++ c.float64

/-- The values the codes have in the vendor header `asio.h` (SDK 2.3). -/
def asioSDK : ASIOSampleTypes :=
  { ASIOSTInt16MSB := 0
    ASIOSTInt24MSB := 1
    ASIOSTInt32MSB := 2
    ASIOSTFloat32MSB := 3
    ASIOSTFloat64MSB := 4
    ASIOSTInt32MSB16 := 8
    ASIOSTInt32MSB18 := 9
    ASIOSTInt32MSB20 := 10
    ASIOSTInt32MSB24 := 11
    ASIOSTInt16LSB := 16
    ASIOSTInt24LSB := 17
    ASIOSTInt32LSB := 18
    ASIOSTFloat32LSB := 19
    ASIOSTFloat64LSB := 20
    ASIOSTInt32LSB16 := 24
    ASIOSTInt32LSB18 := 25
    ASIOSTInt32LSB20 := 26
    ASIOSTInt32LSB24 := 27 }

/-- The function `getSampleSize(sampleType)`: the `switch` over the case
labels, group by group in source order, with `default: return -1`. -/
def getSampleSize (c : ASIOSampleTypes) (sampleType : Int) : Int :=
  if sampleType = c.ASIOSTInt16LSB ∨ sampleType = c.ASIOSTInt16MSB then 2
  else if sampleType = c.ASIOSTInt24LSB ∨ sampleType = c.ASIOSTInt24MSB then 3
  else if sampleType = c.ASIOSTInt32LSB ∨ sampleType = c.ASIOSTInt32MSB
      ∨ sampleType = c.ASIOSTFloat32LSB ∨ sampleType = c.ASIOSTFloat32MSB
      ∨ sampleType = c.ASIOSTInt32LSB16 ∨ sampleType = c.ASIOSTInt32LSB18
      ∨ sampleType = c.ASIOSTInt32LSB20 ∨ sampleType = c.ASIOSTInt32LSB24
      ∨ sampleType = c.ASIOSTInt32MSB16 ∨ sampleType = c.ASIOSTInt32MSB18
      ∨ sampleType = c.ASIOSTInt32MSB20 ∨ sampleType = c.ASIOSTInt32MSB24 then 4
  else if sampleType = c.ASIOSTFloat64LSB ∨ sampleType = c.ASIOSTFloat64MSB then 8
  else -1

/-- The client-facing enumeration `CASIO_SampleFormat`. -/
inductive CASIO_SampleFormat where
  | Unknown
  | Int32
  | Float32
  | Float64
  deriving DecidableEq

/-- The record `CASIO_DeviceProperties` filled in by `CASIO_GetProperties`. -/
structure CASIO_DeviceProperties where
  name : String
  numInputs : Int
  numOutputs : Int
  bufferSampleLength : Int
  bufferByteLength : Int
  sampleFormat : CASIO_SampleFormat
  deriving DecidableEq

/-- The entry point `CASIO_GetProperties(device, props, currentSampleRate)` on
the record the handle points to.  The result is the filled-in `props`, the
value stored in `*currentSampleRate` and the status.  The product
`currentSize * getSampleSize(sampleType)` is a signed multiplication. -/
def CASIO_GetProperties (c : ASIOSampleTypes) (device : _CASIO_Device) :
    Except Fault (CASIO_DeviceProperties × Nat × Int) :=
  let sampleType := (device.channelInfos 0).type
  let bytes := device.buffer.currentSize * getSampleSize c sampleType
  if bytes < INT_MIN ∨ INT_MAX < bytes then .error .signedOverflow else
  let sampleFormat :=
    if sampleType = c.ASIOSTInt32LSB then CASIO_SampleFormat.Int32
    else if sampleType = c.ASIOSTFloat32LSB then CASIO_SampleFormat.Float32
    else if sampleType = c.ASIOSTFloat64LSB then CASIO_SampleFormat.Float64
    else CASIO_SampleFormat.Unknown
  .ok ({ name := device.name
         numInputs := device.numInputs
         numOutputs := device.numOutputs
         bufferSampleLength := device.buffer.currentSize
         bufferByteLength := bytes
         sampleFormat := sampleFormat }, device.sampleRate, 0)

/-! ## Event router: buffer switch with time info -/

/-- The vendor record `ASIOTimeStamp`: two `unsigned long` words. -/
structure ASIOTimeStamp where
  hi : Nat
  lo : Nat
  deriving DecidableEq

/-- The vendor record `ASIOSamples`: two `unsigned long` words. -/
structure ASIOSamples where
  hi : Nat
  lo : Nat
  deriving DecidableEq

/-- The members of the vendor record `AsioTimeInfo` that the router reads. -/
structure AsioTimeInfo where
  systemTime : ASIOTimeStamp
  samplePosition : ASIOSamples
  flags : Nat
  deriving DecidableEq

/-- The members of the vendor record `ASIOTimeCode` that the router reads. -/
structure ASIOTimeCode where
  timeCodeSamples : ASIOSamples
  flags : Nat
  deriving DecidableEq

/-- The vendor record `ASIOTime`. -/
structure ASIOTime where
  timeInfo : AsioTimeInfo
  timeCode : ASIOTimeCode
  deriving DecidableEq

/-- The flag bits named by `onBufferSwitchTimeInfo`: the three validity bits of
the vendor header and the three client time flags of the client header. -/
structure TimeFlagBits where
  kSystemTimeValid : Nat
  kSamplePositionValid : Nat
  kTcValid : Nat
  CASIO_TimeFlag_NanoSecs : Nat
  CASIO_TimeFlag_Samples : Nat
  CASIO_TimeFlag_TCSamples : Nat
  deriving DecidableEq

/-- The client flags are usable as independent flags: none is empty and no two
share a bit. -/
def TimeFlagBits.independent (k : TimeFlagBits) : Prop :=
  k.CASIO_TimeFlag_NanoSecs ≠ 0 ∧ k.CASIO_TimeFlag_Samples ≠ 0 ∧ k.CASIO_TimeFlag_TCSamples ≠ 0
    ∧ k.CASIO_TimeFlag_NanoSecs &&& k.CASIO_TimeFlag_Samples = 0
    ∧ k.CASIO_TimeFlag_NanoSecs &&& k.CASIO_TimeFlag_TCSamples = 0
    ∧ k.CASIO_TimeFlag_Samples &&& k.CASIO_TimeFlag_TCSamples = 0

/-- Validity bits as in the vendor header (`kSystemTimeValid = 1`,
`kSamplePositionValid = 1 << 1`, `kTcValid = 1`) with the client flags on bits
0, 1 and 2. -/
def sdkTimeFlagBits : TimeFlagBits :=
  { kSystemTimeValid := 1
    kSamplePositionValid := 2
    kTcValid := 1
    CASIO_TimeFlag_NanoSecs := 1
    CASIO_TimeFlag_Samples := 2
    CASIO_TimeFlag_TCSamples := 4 }

/-- The helper `timestampToUint64`: word 0 of the result is `lo`, word 1 is
`hi` (little-endian win32 target). -/
def timestampToUint64 (x : ASIOTimeStamp) : Nat :=
  x.lo % 2 ^ 32 + (x.hi % 2 ^ 32) * 2 ^ 32

/-- The helper `samplesToUint64`: word 0 of the result is `lo`, word 1 is
`hi` (little-endian win32 target). -/
def samplesToUint64 (x : ASIOSamples) : Nat :=
  x.lo % 2 ^ 32 + (x.hi % 2 ^ 32) * 2 ^ 32

/-- The time part of a buffer-switch event. -/
structure CASIO_Time where
  flags : Nat
  nanoSeconds : Nat
  samples : Nat
  tcSamples : Nat
  deriving DecidableEq

/-- The enumeration `CASIO_EventType`. -/
inductive CASIO_EventType where
  | Log
  | SampleRateChanged
  | BufferSwitch
  deriving DecidableEq

/-- The member of the event that belongs to its type. -/
inductive CASIO_EventPayload where
  | logEvent (message : String)
  | sampleRateChangedEvent (newSampleRate : Nat)
  | bufferSwitchEvent (time : CASIO_Time) (inputs : Nat → Ptr) (outputs : Nat → Ptr)

/-- The record `CASIO_Event` as the client callback receives it.  `handled` is
`none` when the router never wrote the member (its value is indeterminate). -/
structure CASIO_Event where
  eventType : CASIO_EventType
  handled : Option Bool
  payload : CASIO_EventPayload

/-- What the router does to the outside: a call of the client callback
`apiClientCallback(&event, device, userData)` or a call of the driver's
`outputReady()`. -/
inductive Effect where
  | clientCallback (event : CASIO_Event) (device : CASIO_Device) (userData : Ptr)
  | outputReady (driver : Nat)

/-- The time fields that `onBufferSwitchTimeInfo` writes into the
zero-initialised event, one conditional after the other. -/
def bufferSwitchTime (k : TimeFlagBits) (timeInfo : ASIOTime) : CASIO_Time :=
  let t0 : CASIO_Time := { flags := 0, nanoSeconds := 0, samples := 0, tcSamples := 0 }
  let t1 : CASIO_Time :=
    if timeInfo.timeInfo.flags &&& k.kSystemTimeValid ≠ 0 then
      { t0 with
        nanoSeconds := timestampToUint64 timeInfo.timeInfo.systemTime
        flags := t0.flags ||| k.CASIO_TimeFlag_NanoSecs }
    else t0
  let t2 : CASIO_Time :=
    if timeInfo.timeInfo.flags &&& k.kSamplePositionValid ≠ 0 then
      { t1 with
        samples := samplesToUint64 timeInfo.timeInfo.samplePosition
        flags := t1.flags ||| k.CASIO_TimeFlag_Samples }
    else t1
  if timeInfo.timeCode.flags &&& k.kTcValid ≠ 0 then
    { t2 with
      tcSamples := samplesToUint64 timeInfo.timeCode.timeCodeSamples
      flags := t2.flags ||| k.CASIO_TimeFlag_TCSamples }
  else t2

/-- The router `onBufferSwitchTimeInfo(device, timeInfo, doubleBufferIndex,
directProcess)`: builds the event, calls the client callback, then calls
`outputReady()` when the device supports it.  The result is the sequence of
effects and the returned pointer (always null). -/
def onBufferSwitchTimeInfo (k : TimeFlagBits) (w : World) (device : CASIO_Device)
    (timeInfo : ASIOTime) (doubleBufferIndex : Int) (_directProcess : Int) :
    Except Fault (List Effect × Ptr) :=
  let time := bufferSwitchTime k timeInfo
  match device with
  | none => .error .invalidHandle
  | some h =>
    match w.heap h with
    | none => .error .invalidHandle
    | some d =>
      if hidx : 0 ≤ doubleBufferIndex ∧ doubleBufferIndex < 2 then
        let half : Fin 2 := ⟨doubleBufferIndex.toNat, by omega⟩
        let event : CASIO_Event :=
          { eventType := CASIO_EventType.BufferSwitch
            handled := some false
            payload :=
              CASIO_EventPayload.bufferSwitchEvent time (d.bufferPtrs half).inputs
                (d.bufferPtrs half).outputs }
        let call := Effect.clientCallback event (some h) d.userData
        if d.supportsOutputReady then
          .ok ([call, Effect.outputReady d.asioDriver], 0)
        else
          .ok ([call], 0)
      else .error .outOfBounds

/-! ## Call sequences and sample environments -/

/-- A call of one of the two entry points that write the slot table. -/
inductive Call where
  | openDevice (id : Nat) (userData : Ptr) (env : OpenEnv)
  | closeDevice (device : CASIO_Device)

/-- The state after one call. -/
def step (w : World) : Call → Except Fault World
  | Call.openDevice id userData env => (CASIO_OpenDevice id userData env w).map (fun r => r.1)
  | Call.closeDevice device => (CASIO_CloseDevice device w).map (fun r => r.1)

/-- The state after a sequence of calls, made one after the other. -/
def run : List Call → World → Except Fault World
  | [], w => .ok w
  | c :: cs, w =>
    match step w c with
    | .ok w1 => run cs w1
    | .error e => .error e

/-- The devices that are open in a state: the live records. -/
def World.isOpen (w : World) (h : Handle) (d : _CASIO_Device) : Prop :=
  w.heap h = some d

/-- The entry of the slot table at an `int` index, when the index is inside the
table. -/
def World.slot (w : World) (i : Int) : Option CASIO_Device :=
  if hi : 0 ≤ i ∧ i < (MAX_OPEN_DEVICES : Int) then
    some (w.globalDevices ⟨i.toNat, by omega⟩)
  else none

/-- A record whose members are all zero. -/
def zeroDevice : _CASIO_Device :=
  { id := 0
    asioDriver := 0
    userData := 0
    name := ""
    driverVersion := 0
    numInputs := 0
    numOutputs := 0
    buffer := { minSize := 0, maxSize := 0, prefSize := 0, granularity := 0, currentSize := 0 }
    sampleRate := 0
    supportsOutputReady := false
    inputLatency := 0
    outputLatency := 0
    bufferInfos := fun _ => { isInput := 0, channelNum := 0, buffers := fun _ => 0 }
    channelInfos := fun _ =>
      { channel := 0, isInput := 0, isActive := 0, channelGroup := 0, type := 0, name := "" }
    callbacks := { slot := 0 }
    bufferPtrs := fun _ => { inputs := fun _ => 0, outputs := fun _ => 0 }
    started := false
    globalIndex := 0 }

/-- A driver that answers every call of `CASIO_OpenDevice` with success: two
inputs and two outputs of the given sample type, preferred buffer size 256. -/
def okEnv (driver : Nat) (sampleType : Int) : OpenEnv :=
  { coCreateInstanceOk := true
    driver := driver
    uninit := zeroDevice
    driverName := "driver"
    driverVersion := 1
    initOk := true
    numInputs := 2
    numOutputs := 2
    minSize := 64
    maxSize := 1024
    prefSize := 256
    granularity := 64
    sampleRate := 0
    outputReadyOk := true
    createBuffersOk := true
    driverBuffers := fun i half => 4096 * (2 * i + half.val + 1)
    channelInfoOk := fun _ => true
    channelInfo := fun i =>
      { channel := 0, isInput := 0, isActive := 1, channelGroup := 0, type := sampleType,
        name := "ch" ++ toString i }
    latenciesOk := true
    inputLatency := 256
    outputLatency := 256 }

/-- Eight successful opens from the initial state. -/
def eightOpens : List Call :=
  (List.range 8).map (fun i => Call.openDevice i (100 + i) (okEnv i 18))

/-- The slot invariant: every live record was handed out by the allocator, has
an index below the counter, and sits in the table entry of its index. -/
def SlotInv (w : World) : Prop :=
  ∀ h d, w.heap h = some d →
    h < w.nextHandle ∧ d.globalIndex < w.globalNumDevices
      ∧ ∃ slot : Fin MAX_OPEN_DEVICES, (slot.val : Int) = d.globalIndex ∧ w.globalDevices slot = some h

/-- The state a run ends in; the initial state stands in for a faulted run. -/
def finalWorld (calls : List Call) : World :=
  match run calls World.initial with
  | .ok w => w
  | .error _ => World.initial

/-- The record behind a handle; the zero record stands in for a dead handle. -/
def World.deref (w : World) (h : Handle) : _CASIO_Device :=
  (w.heap h).getD zeroDevice

/-- Device A is opened. -/
def callsA : List Call :=
  [Call.openDevice 0 100 (okEnv 0 18)]

/-- Devices A and B are opened. -/
def callsAB : List Call :=
  callsA ++ [Call.openDevice 1 101 (okEnv 1 18)]

/-- Devices A and B are opened, then A (handle 1) is closed. -/
def callsABcloseA : List Call :=
  callsAB ++ [Call.closeDevice (some 1)]

/-- Devices A and B are opened, A is closed, a third device is opened. -/
def callsABcloseAC : List Call :=
  callsABcloseA ++ [Call.openDevice 2 102 (okEnv 2 18)]

/-- A driver whose `init` is rejected. -/
def initRejectedEnv : OpenEnv :=
  { okEnv 0 18 with initOk := false }

/-- A driver whose `createBuffers` fails. -/
def noBuffersEnv : OpenEnv :=
  { okEnv 0 18 with createBuffersOk := false }

/-- Device A is opened, then an open fails at `createBuffers`. -/
def callsAfail : List Call :=
  callsA ++ [Call.openDevice 1 101 noBuffersEnv]

/-- One device whose channels have the sixteen-bit type `ASIOSTInt16LSB`. -/
def callsInt16 : List Call :=
  [Call.openDevice 0 100 (okEnv 0 16)]

/-- One device whose channels have the twenty-four-bit type `ASIOSTInt24LSB`. -/
def callsInt24 : List Call :=
  [Call.openDevice 0 100 (okEnv 0 17)]

/-- The properties reported for the device of `callsInt16`. -/
def props16 : CASIO_DeviceProperties :=
  { name := "driver", numInputs := 2, numOutputs := 2, bufferSampleLength := 256,
    bufferByteLength := 512, sampleFormat := CASIO_SampleFormat.Unknown }

/-- The properties reported for the device of `callsInt24`. -/
def props24 : CASIO_DeviceProperties :=
  { name := "driver", numInputs := 2, numOutputs := 2, bufferSampleLength := 256,
    bufferByteLength := 768, sampleFormat := CASIO_SampleFormat.Unknown }

/-- Every `unsigned long` word of the record holds a 32-bit value. -/
def ASIOTime.wordsInRange (t : ASIOTime) : Prop :=
  t.timeInfo.systemTime.hi < 2 ^ 32 ∧ t.timeInfo.systemTime.lo < 2 ^ 32
    ∧ t.timeInfo.samplePosition.hi < 2 ^ 32 ∧ t.timeInfo.samplePosition.lo < 2 ^ 32
    ∧ t.timeCode.timeCodeSamples.hi < 2 ^ 32 ∧ t.timeCode.timeCodeSamples.lo < 2 ^ 32

instance (t : ASIOTime) : Decidable t.wordsInRange := by
  unfold ASIOTime.wordsInRange
  infer_instance

instance (k : TimeFlagBits) : Decidable k.independent := by
  unfold TimeFlagBits.independent
  infer_instance

/-- A time-info record in which only the sample position is valid. -/
def sampleTime : ASIOTime :=
  { timeInfo :=
      { systemTime := { hi := 0, lo := 0 }, samplePosition := { hi := 3, lo := 5 }, flags := 2 }
    timeCode := { timeCodeSamples := { hi := 0, lo := 0 }, flags := 0 } }

/-! ## Event router: logging, sample-rate change, messages, trampolines -/

/-- The function `logMessage(message)`: a Log event whose `handled` member is
never written is passed to the client callback with a null device and null
user data. -/
def logMessage (message : String) : List Effect :=
  [Effect.clientCallback
    { eventType := CASIO_EventType.Log
      handled := none
      payload := CASIO_EventPayload.logEvent message }
    none 0]

/-- The router `onSampleRateDidChange(device, sRate)`: a SampleRateChanged
event with `handled = false` and the new rate is passed to the client callback
with the device and its user data. -/
def onSampleRateDidChange (w : World) (device : CASIO_Device) (sRate : Nat) :
    Except Fault (List Effect) :=
  match device with
  | none => .error .invalidHandle
  | some h =>
    match w.heap h with
    | none => .error .invalidHandle
    | some d =>
      .ok [Effect.clientCallback
            { eventType := CASIO_EventType.SampleRateChanged
              handled := some false
              payload := CASIO_EventPayload.sampleRateChangedEvent sRate }
            (some h) d.userData]

/-- What the driver's `getSamplePosition` stores in its two out-parameters and
whether it answers `ASE_OK`. -/
structure SamplePositionAnswer where
  samplePosition : ASIOSamples
  systemTime : ASIOTimeStamp
  ok : Bool
  deriving DecidableEq

/-- The time-info record that `onBufferSwitch` builds: zeroed, then the
driver's sample position and system time, flagged valid when the query
answered `ASE_OK`. -/
def backDoorTimeInfo (k : TimeFlagBits) (answer : SamplePositionAnswer) : ASIOTime :=
  { timeInfo :=
      { systemTime := answer.systemTime
        samplePosition := answer.samplePosition
        flags := if answer.ok then k.kSystemTimeValid ||| k.kSamplePositionValid else 0 }
    timeCode := { timeCodeSamples := { hi := 0, lo := 0 }, flags := 0 } }

/-- The router `onBufferSwitch(device, doubleBufferIndex, directProcess)`: a
zeroed time-info record gets the driver's sample position and system time, both
flagged valid when the query answered `ASE_OK`, and is handed to
`onBufferSwitchTimeInfo`. -/
def onBufferSwitch (k : TimeFlagBits) (w : World) (device : CASIO_Device)
    (answer : SamplePositionAnswer) (doubleBufferIndex : Int) (directProcess : Int) :
    Except Fault (List Effect) :=
  match device with
  | none => .error .invalidHandle
  | some h =>
    match w.heap h with
    | none => .error .invalidHandle
    | some _ =>
      (onBufferSwitchTimeInfo k w device (backDoorTimeInfo k answer) doubleBufferIndex
          directProcess).map
        (fun r => r.1)

/-- The message selectors named by `onAsioMessage`.  Their values come from the
vendor header, which is not part of the translation unit. -/
structure ASIOSelectors where
  kAsioSelectorSupported : Int
  kAsioEngineVersion : Int
  kAsioResetRequest : Int
  kAsioBufferSizeChange : Int
  kAsioResyncRequest : Int
  kAsioLatenciesChanged : Int
  kAsioSupportsTimeInfo : Int
  kAsioSupportsTimeCode : Int
  kAsioOverload : Int
  deriving DecidableEq

/-- The case labels of the inner `switch (value)`, in source order. -/
def ASIOSelectors.supported (s : ASIOSelectors) : List Int :=
  [s.kAsioEngineVersion, s.kAsioResetRequest, s.kAsioBufferSizeChange, s.kAsioResyncRequest,
   s.kAsioLatenciesChanged, s.kAsioSupportsTimeInfo, s.kAsioSupportsTimeCode, s.kAsioOverload]

/-- The case labels of the outer `switch (selector)`, in source order. -/
def ASIOSelectors.labels (s : ASIOSelectors) : List Int :=
  s.kAsioSelectorSupported :: s.supported

/-- The values the selectors have in the vendor header `asio.h` (SDK 2.3). -/
def sdkSelectors : ASIOSelectors :=
  { kAsioSelectorSupported := 1
    kAsioEngineVersion := 2
    kAsioResetRequest := 3
    kAsioBufferSizeChange := 4
    kAsioResyncRequest := 5
    kAsioLatenciesChanged := 6
    kAsioSupportsTimeInfo := 7
    kAsioSupportsTimeCode := 8
    kAsioOverload := 15 }

/-- The router `onAsioMessage(device, selector, value, message, opt)`: the outer
`switch` over the selector with the inner `switch` over the value, case by case
in source order.  The result is the log calls made and the returned answer. -/
def onAsioMessage (s : ASIOSelectors) (_device : CASIO_Device) (selector : Int) (value : Int)
    (_message : Ptr) (_opt : Ptr) : List Effect × Int :=
  if selector = s.kAsioSelectorSupported then
    if value = s.kAsioEngineVersion ∨ value = s.kAsioResetRequest
        ∨ value = s.kAsioBufferSizeChange ∨ value = s.kAsioResyncRequest
        ∨ value = s.kAsioLatenciesChanged ∨ value = s.kAsioSupportsTimeInfo
        ∨ value = s.kAsioSupportsTimeCode ∨ value = s.kAsioOverload then
      ([], 1)
    else ([], 0)
  else if selector = s.kAsioEngineVersion then ([], 2)
  else if selector = s.kAsioResetRequest then (logMessage "kAsioResetRequest", 0)
  else if selector = s.kAsioBufferSizeChange then (logMessage "kAsioBufferSizeChange", 0)
  else if selector = s.kAsioResyncRequest then (logMessage "kAsioResyncRequest", 0)
  else if selector = s.kAsioLatenciesChanged then (logMessage "kAsioLatenciesChanged", 0)
  else if selector = s.kAsioSupportsTimeInfo then ([], 1)
  else if selector = s.kAsioSupportsTimeCode then ([], 0)
  else if selector = s.kAsioOverload then (logMessage "kAsioOverload!", 1)
  else (logMessage ("unhandled asioMessage selector " ++ toString selector ++ "\n"), 0)

/-- The trampoline `onBufferSwitchTimeInfo_x` of ASIO_CALLBACKS_DECL(x): reads
`globalDevices[x]` and forwards. -/
def onBufferSwitchTimeInfo_x (k : TimeFlagBits) (x : Fin MAX_OPEN_DEVICES) (w : World)
    (timeInfo : ASIOTime) (doubleBufferIndex : Int) (directProcess : Int) :
    Except Fault (List Effect × Ptr) :=
  onBufferSwitchTimeInfo k w (w.globalDevices x) timeInfo doubleBufferIndex directProcess

/-- The trampoline `onBufferSwitch_x` of ASIO_CALLBACKS_DECL(x). -/
def onBufferSwitch_x (k : TimeFlagBits) (x : Fin MAX_OPEN_DEVICES) (w : World)
    (answer : SamplePositionAnswer) (doubleBufferIndex : Int) (directProcess : Int) :
    Except Fault (List Effect) :=
  onBufferSwitch k w (w.globalDevices x) answer doubleBufferIndex directProcess

/-- The trampoline `onSampleRateDidChange_x` of ASIO_CALLBACKS_DECL(x). -/
def onSampleRateDidChange_x (x : Fin MAX_OPEN_DEVICES) (w : World) (sRate : Nat) :
    Except Fault (List Effect) :=
  onSampleRateDidChange w (w.globalDevices x) sRate

/-- The trampoline `onAsioMessage_x` of ASIO_CALLBACKS_DECL(x). -/
def onAsioMessage_x (s : ASIOSelectors) (x : Fin MAX_OPEN_DEVICES) (w : World) (selector : Int)
    (value : Int) (message : Ptr) (opt : Ptr) : List Effect × Int :=
  onAsioMessage s (w.globalDevices x) selector value message opt

/-- Whether an effect is a call of the client callback. -/
def Effect.isClientCallback : Effect → Bool
  | Effect.clientCallback _ _ _ => true
  | Effect.outputReady _ => false

/-- Whether an effect is a call of the driver's `outputReady()`. -/
def Effect.isOutputReady : Effect → Bool
  | Effect.clientCallback _ _ _ => false
  | Effect.outputReady _ => true

/-- The user data an effect hands to the client, when it is a callback. -/
def Effect.userData : Effect → Option Ptr
  | Effect.clientCallback _ _ userData => some userData
  | Effect.outputReady _ => none

/-- The `handled` member of the event an effect hands to the client, when it
is a callback. -/
def Effect.handled : Effect → Option (Option Bool)
  | Effect.clientCallback event _ _ => some event.handled
  | Effect.outputReady _ => none

/-- The event that `onBufferSwitchTimeInfo` builds for a device record, a
time-info record and a buffer half. -/
def bufferSwitchEventOf (k : TimeFlagBits) (d : _CASIO_Device) (timeInfo : ASIOTime)
    (half : Fin 2) : CASIO_Event :=
  { eventType := CASIO_EventType.BufferSwitch
    handled := some false
    payload :=
      CASIO_EventPayload.bufferSwitchEvent (bufferSwitchTime k timeInfo)
        (d.bufferPtrs half).inputs (d.bufferPtrs half).outputs }

/-- A driver like `okEnv` that does not advertise the output-ready
optimization. -/
def noOutputReadyEnv (driver : Nat) : OpenEnv :=
  { okEnv driver 18 with outputReadyOk := false }

/-- A `getSamplePosition` answer: position (hi 0, lo 512), time (hi 1, lo 7),
`ASE_OK`. -/
def sampleAnswer : SamplePositionAnswer :=
  { samplePosition := { hi := 0, lo := 512 }, systemTime := { hi := 1, lo := 7 }, ok := true }

/-- One device whose driver does not advertise the output-ready
optimization. -/
def callsQuiet : List Call :=
  [Call.openDevice 0 100 (noOutputReadyEnv 7)]

/-! ## Shape of the results of open and close -/

/-- Every returning `CASIO_OpenDevice` call ends in one of four ways: COM
instantiation failed; `init` was rejected; a later driver call failed; or the
device was opened. -/
theorem open_ok_cases (id : Nat) (userData : Ptr) (env : OpenEnv) (w w1 : World) (st : Int)
    (out : CASIO_Device) (h : CASIO_OpenDevice id userData env w = .ok (w1, st, out)) :
    (env.coCreateInstanceOk = false ∧ w1 = w ∧ st = -1 ∧ out = none)
    ∨ (env.coCreateInstanceOk = true ∧ env.initOk = false ∧ st = -1 ∧ out = none
        ∧ w1 = { w with globalNumDevices := w.globalNumDevices + 1, nextHandle := w.nextHandle + 1 })
    ∨ (env.coCreateInstanceOk = true ∧ env.initOk = true ∧ st = -1 ∧ out = none
        ∧ ∃ slot : Fin MAX_OPEN_DEVICES, (slot.val : Int) = w.globalNumDevices
          ∧ w1 = { w with globalNumDevices := w.globalNumDevices + 1, nextHandle := w.nextHandle + 1,
                          globalDevices := Function.update w.globalDevices slot (some w.nextHandle) })
    ∨ (env.coCreateInstanceOk = true ∧ env.initOk = true ∧ st = 0 ∧ out = some w.nextHandle
        ∧ ∃ (slot : Fin MAX_OPEN_DEVICES) (d : _CASIO_Device), (slot.val : Int) = w.globalNumDevices
          ∧ d.globalIndex = w.globalNumDevices ∧ d.userData = userData ∧ d.started = false
          ∧ w1 = { globalNumDevices := w.globalNumDevices + 1, nextHandle := w.nextHandle + 1,
                   globalDevices := Function.update w.globalDevices slot (some w.nextHandle),
                   heap := Function.update w.heap w.nextHandle (some d) }) := by
  unfold CASIO_OpenDevice at h
  simp only [errorExit] at h
  split at h
  · split at h
    · cases h
    · split at h
      · right; left
        simp only [Except.ok.injEq, Prod.mk.injEq] at h
        obtain ⟨rfl, rfl, rfl⟩ := h
        simp_all
      · split at h
        · cases h
        · split at h
          · rename_i hidx
            have hs : ((⟨w.globalNumDevices.toNat, by omega⟩ : Fin MAX_OPEN_DEVICES).val : Int)
                = w.globalNumDevices := by
              simp; omega
            split at h
            · split at h
              · split at h
                · right; right; right
                  simp only [Except.ok.injEq, Prod.mk.injEq] at h
                  obtain ⟨rfl, rfl, rfl⟩ := h
                  refine ⟨by assumption, by simp_all, rfl, rfl, _, _, hs, rfl, rfl, rfl, rfl⟩
                · right; right; left
                  simp only [Except.ok.injEq, Prod.mk.injEq] at h
                  obtain ⟨rfl, rfl, rfl⟩ := h
                  exact ⟨by assumption, by simp_all, rfl, rfl, _, hs, rfl⟩
              · right; right; left
                simp only [Except.ok.injEq, Prod.mk.injEq] at h
                obtain ⟨rfl, rfl, rfl⟩ := h
                exact ⟨by assumption, by simp_all, rfl, rfl, _, hs, rfl⟩
            · right; right; left
              simp only [Except.ok.injEq, Prod.mk.injEq] at h
              obtain ⟨rfl, rfl, rfl⟩ := h
              exact ⟨by assumption, by simp_all, rfl, rfl, _, hs, rfl⟩
          · cases h
  · left
    simp only [Except.ok.injEq, Prod.mk.injEq] at h
    obtain ⟨rfl, rfl, rfl⟩ := h
    simp_all

/-- A `CASIO_OpenDevice` call that returns 0 hands out the allocator's next
address, gives the record the old counter as index, stores it in that table
entry and advances the counter. -/
theorem open_success (id : Nat) (userData : Ptr) (env : OpenEnv) (w w1 : World)
    (out : CASIO_Device) (h : CASIO_OpenDevice id userData env w = .ok (w1, 0, out)) :
    out = some w.nextHandle
      ∧ ∃ (slot : Fin MAX_OPEN_DEVICES) (d : _CASIO_Device), (slot.val : Int) = w.globalNumDevices
          ∧ d.globalIndex = w.globalNumDevices ∧ d.userData = userData ∧ d.started = false
          ∧ w1 = { globalNumDevices := w.globalNumDevices + 1, nextHandle := w.nextHandle + 1,
                   globalDevices := Function.update w.globalDevices slot (some w.nextHandle),
                   heap := Function.update w.heap w.nextHandle (some d) } := by
  rcases open_ok_cases id userData env w w1 0 out h with
    ⟨-, -, h0, -⟩ | ⟨-, -, h0, -⟩ | ⟨-, -, h0, -⟩ | ⟨-, -, -, hout, hrest⟩
  · exact absurd h0 (by decide)
  · exact absurd h0 (by decide)
  · exact absurd h0 (by decide)
  · exact ⟨hout, hrest⟩

/-- Every returning `CASIO_CloseDevice` call returns 0; it either got a null
handle and did nothing, or cleared the table entry of the record's index and
deleted the record. -/
theorem close_ok_cases (device : CASIO_Device) (w w1 : World) (st : Int)
    (h : CASIO_CloseDevice device w = .ok (w1, st)) :
    st = 0 ∧ ((device = none ∧ w1 = w)
      ∨ ∃ (hd : Handle) (d : _CASIO_Device) (slot : Fin MAX_OPEN_DEVICES),
          device = some hd ∧ w.heap hd = some d ∧ (slot.val : Int) = d.globalIndex
          ∧ w1 = { w with globalDevices := Function.update w.globalDevices slot none,
                          heap := Function.update w.heap hd none }) := by
  unfold CASIO_CloseDevice at h
  split at h
  · simp only [Except.ok.injEq, Prod.mk.injEq] at h
    obtain ⟨rfl, rfl⟩ := h
    exact ⟨rfl, Or.inl ⟨rfl, rfl⟩⟩
  · rename_i hd
    split at h
    · cases h
    · rename_i d hheap
      split at h
      · rename_i hidx
        simp only [Except.ok.injEq, Prod.mk.injEq] at h
        obtain ⟨rfl, rfl⟩ := h
        refine ⟨rfl, Or.inr ⟨hd, d, ⟨d.globalIndex.toNat, by omega⟩, rfl, hheap, ?_, rfl⟩⟩
        simp only
        omega
      · cases h

/-- Table positions with different `int` values are different positions. -/
theorem fin_ne_of_val_ne {a b : Fin MAX_OPEN_DEVICES} {x y : Int}
    (ha : (a.val : Int) = x) (hb : (b.val : Int) = y) (hxy : x ≠ y) : a ≠ b := by
  intro hab
  subst hab
  exact hxy (ha.symm.trans hb)

/-- Reading the table at an `int` index gives an entry exactly when the index
names a table position. -/
theorem slot_eq_some_iff (w : World) (i : Int) (x : CASIO_Device) :
    w.slot i = some x ↔ ∃ s : Fin MAX_OPEN_DEVICES, (s.val : Int) = i ∧ w.globalDevices s = x := by
  unfold World.slot
  constructor
  · intro h
    split at h
    · rename_i hi
      refine ⟨⟨i.toNat, by omega⟩, ?_, Option.some.inj h⟩
      simp only
      omega
    · cases h
  · rintro ⟨s, hs, hx⟩
    have hi : 0 ≤ i ∧ i < (MAX_OPEN_DEVICES : Int) := by
      have := s.isLt
      omega
    rw [dif_pos hi]
    have : (⟨i.toNat, by omega⟩ : Fin MAX_OPEN_DEVICES) = s := by
      apply Fin.ext
      simp only
      omega
    rw [this, hx]

/-! ## The slot invariant is inductive -/

/-- The initial state satisfies the slot invariant. -/
theorem SlotInv_initial : SlotInv World.initial := by
  intro h d hd
  simp [World.initial] at hd

/-- A returning open preserves the slot invariant. -/
theorem SlotInv_open (id : Nat) (userData : Ptr) (env : OpenEnv) (w w1 : World) (st : Int)
    (out : CASIO_Device) (hinv : SlotInv w)
    (h : CASIO_OpenDevice id userData env w = .ok (w1, st, out)) : SlotInv w1 := by
  rcases open_ok_cases id userData env w w1 st out h with
    ⟨-, rfl, -, -⟩ | ⟨-, -, -, -, rfl⟩ | ⟨-, -, -, -, slot, hslot, rfl⟩
      | ⟨-, -, -, -, slot, d, hslot, hd, -, -, rfl⟩
  · exact hinv
  · intro h0 d0 h0d
    obtain ⟨h1, h2, s, hs, hg⟩ := hinv h0 d0 h0d
    exact ⟨Nat.lt_succ_of_lt h1, by simp only; omega, s, hs, hg⟩
  · intro h0 d0 h0d
    obtain ⟨h1, h2, s, hs, hg⟩ := hinv h0 d0 h0d
    refine ⟨Nat.lt_succ_of_lt h1, by simp only; omega, s, hs, ?_⟩
    have hne : s ≠ slot := fin_ne_of_val_ne hs hslot (by omega)
    simp only [Function.update_noteq hne]
    exact hg
  · intro h0 d0 h0d
    simp only at h0d
    by_cases hh : h0 = w.nextHandle
    · subst hh
      simp only [Function.update_same, Option.some.injEq] at h0d
      subst h0d
      exact ⟨Nat.lt_succ_self _, by simp only; omega, slot, by omega, by simp⟩
    · rw [Function.update_noteq hh] at h0d
      obtain ⟨h1, h2, s, hs, hg⟩ := hinv h0 d0 h0d
      refine ⟨Nat.lt_succ_of_lt h1, by simp only; omega, s, hs, ?_⟩
      have hne : s ≠ slot := fin_ne_of_val_ne hs hslot (by omega)
      simp only [Function.update_noteq hne]
      exact hg

/-- A returning close preserves the slot invariant. -/
theorem SlotInv_close (device : CASIO_Device) (w w1 : World) (st : Int) (hinv : SlotInv w)
    (h : CASIO_CloseDevice device w = .ok (w1, st)) : SlotInv w1 := by
  rcases close_ok_cases device w w1 st h with ⟨-, ⟨-, rfl⟩ | ⟨hd, d, slot, -, hheap, hslot, rfl⟩⟩
  · exact hinv
  · intro h0 d0 h0d
    simp only at h0d
    by_cases hh : h0 = hd
    · subst hh
      simp at h0d
    · rw [Function.update_noteq hh] at h0d
      obtain ⟨h1, h2, s, hs, hg⟩ := hinv h0 d0 h0d
      obtain ⟨-, -, s1, hs1, hg1⟩ := hinv hd d hheap
      refine ⟨h1, h2, s, hs, ?_⟩
      have hne : s ≠ slot := by
        intro hss
        subst hss
        have : s1 = s := by
          apply Fin.ext
          have := hs1.trans hslot.symm
          exact_mod_cast this
        subst this
        rw [hg] at hg1
        exact hh (Option.some.inj hg1)
      simp only [Function.update_noteq hne]
      exact hg

/-- Every state a call sequence reaches from a state with the slot invariant
has the slot invariant. -/
theorem SlotInv_run (calls : List Call) :
    ∀ (w w1 : World), SlotInv w → run calls w = .ok w1 → SlotInv w1 := by
  induction calls with
  | nil =>
    intro w w1 hinv h
    simp only [run, Except.ok.injEq] at h
    subst h
    exact hinv
  | cons c cs ih =>
    intro w w1 hinv h
    simp only [run] at h
    split at h
    · rename_i w2 hstep
      refine ih w2 w1 ?_ h
      cases c with
      | openDevice id userData env =>
        simp only [step, Except.map] at hstep
        split at hstep
        · cases hstep
        · rename_i r hr
          simp only [Except.ok.injEq] at hstep
          subst hstep
          exact SlotInv_open id userData env w r.1 r.2.1 r.2.2 hinv hr
      | closeDevice device =>
        simp only [step, Except.map] at hstep
        split at hstep
        · cases hstep
        · rename_i r hr
          simp only [Except.ok.injEq] at hstep
          subst hstep
          exact SlotInv_close device w r.1 r.2 hinv hr
    · cases h

/-- With the table full, an open whose driver is instantiated and initialised
reads `globalCallbacks` and writes `globalDevices` past their last entry. -/
theorem open_past_capacity (id : Nat) (userData : Ptr) (env : OpenEnv) (w : World)
    (hcom : env.coCreateInstanceOk = true) (hinit : env.initOk = true)
    (hfull : (MAX_OPEN_DEVICES : Int) ≤ w.globalNumDevices)
    (hmax : w.globalNumDevices < INT_MAX)
    (hsum : INT_MIN ≤ min env.numInputs MAX_INPUT_CHANNELS + min env.numOutputs MAX_OUTPUT_CHANNELS) :
    CASIO_OpenDevice id userData env w = .error Fault.outOfBounds := by
  have h1 : ¬ (w.globalNumDevices + 1 > INT_MAX) := by omega
  have h2 : ¬ (min env.numInputs MAX_INPUT_CHANNELS + min env.numOutputs MAX_OUTPUT_CHANNELS
      < INT_MIN) := by omega
  have h3 : ¬ (0 ≤ w.globalNumDevices ∧ w.globalNumDevices < (MAX_OPEN_DEVICES : Int)) := by omega
  unfold CASIO_OpenDevice
  simp only [hcom, hinit, if_true, if_neg h1, if_neg h2, dif_neg h3, Bool.not_true,
    Bool.false_eq_true, if_false]

/-! ## The byte-width table -/

/-- The `switch` of `getSampleSize` as a lookup in the four groups of labels. -/
theorem getSampleSize_eq (c : ASIOSampleTypes) (t : Int) :
    getSampleSize c t =
      if t ∈ c.int16 then 2 else if t ∈ c.int24 then 3 else if t ∈ c.word32 then 4
      else if t ∈ c.float64 then 8 else -1 := by
  simp only [getSampleSize, ASIOSampleTypes.int16, ASIOSampleTypes.int24,
    ASIOSampleTypes.word32, ASIOSampleTypes.float64, List.mem_cons, List.mem_singleton,
    List.not_mem_nil, or_false]

/-- A sixteen-bit code has width 2. -/
theorem getSampleSize_int16 (c : ASIOSampleTypes) (t : Int) (h : t ∈ c.int16) :
    getSampleSize c t = 2 := by
  rw [getSampleSize_eq, if_pos h]

/-- A twenty-four-bit code has width 3 when the labels are distinct. -/
theorem getSampleSize_int24 (c : ASIOSampleTypes) (hc : c.labels.Nodup) (t : Int)
    (h : t ∈ c.int24) : getSampleSize c t = 3 := by
  unfold ASIOSampleTypes.labels at hc
  rw [List.nodup_append, List.nodup_append, List.nodup_append] at hc
  obtain ⟨⟨⟨-, -, h12⟩, -, -⟩, -, -⟩ := hc
  have h1 : t ∉ c.int16 := fun h1 => h12 h1 h
  rw [getSampleSize_eq, if_neg h1, if_pos h]

/-- A four-byte code has width 4 when the labels are distinct. -/
theorem getSampleSize_word32 (c : ASIOSampleTypes) (hc : c.labels.Nodup) (t : Int)
    (h : t ∈ c.word32) : getSampleSize c t = 4 := by
  unfold ASIOSampleTypes.labels at hc
  rw [List.nodup_append, List.nodup_append, List.nodup_append] at hc
  obtain ⟨⟨-, -, h123⟩, -, -⟩ := hc
  have h1 : t ∉ c.int16 := fun h1 => h123 (List.mem_append_left _ h1) h
  have h2 : t ∉ c.int24 := fun h2 => h123 (List.mem_append_right _ h2) h
  rw [getSampleSize_eq, if_neg h1, if_neg h2, if_pos h]

/-- A sixty-four-bit float code has width 8 when the labels are distinct. -/
theorem getSampleSize_float64 (c : ASIOSampleTypes) (hc : c.labels.Nodup) (t : Int)
    (h : t ∈ c.float64) : getSampleSize c t = 8 := by
  unfold ASIOSampleTypes.labels at hc
  rw [List.nodup_append, List.nodup_append, List.nodup_append] at hc
  obtain ⟨-, -, h1234⟩ := hc
  have h1 : t ∉ c.int16 := fun h1 =>
    h1234 (List.mem_append_left _ (List.mem_append_left _ h1)) h
  have h2 : t ∉ c.int24 := fun h2 =>
    h1234 (List.mem_append_left _ (List.mem_append_right _ h2)) h
  have h3 : t ∉ c.word32 := fun h3 => h1234 (List.mem_append_right _ h3) h
  rw [getSampleSize_eq, if_neg h1, if_neg h2, if_neg h3, if_pos h]

/-- A code that is no case label falls to `default`. -/
theorem getSampleSize_default (c : ASIOSampleTypes) (t : Int) (h : t ∉ c.labels) :
    getSampleSize c t = -1 := by
  simp only [ASIOSampleTypes.labels, List.mem_append, not_or] at h
  obtain ⟨⟨⟨h1, h2⟩, h3⟩, h4⟩ := h
  rw [getSampleSize_eq, if_neg h1, if_neg h2, if_neg h3, if_neg h4]

/-! ## The time fields of a buffer-switch event -/

/-- The flags of the event are the union of the client flags whose validity
bit the driver set. -/
theorem bufferSwitchTime_flags (k : TimeFlagBits) (t : ASIOTime) :
    (bufferSwitchTime k t).flags =
      (if t.timeInfo.flags &&& k.kSystemTimeValid ≠ 0 then k.CASIO_TimeFlag_NanoSecs else 0)
        ||| (if t.timeInfo.flags &&& k.kSamplePositionValid ≠ 0 then k.CASIO_TimeFlag_Samples
              else 0)
        ||| (if t.timeCode.flags &&& k.kTcValid ≠ 0 then k.CASIO_TimeFlag_TCSamples else 0) := by
  unfold bufferSwitchTime
  split_ifs <;> simp

/-- Each time field holds the assembled value when its validity bit is set and
stays zero otherwise. -/
theorem bufferSwitchTime_fields (k : TimeFlagBits) (t : ASIOTime) :
    (bufferSwitchTime k t).nanoSeconds =
        (if t.timeInfo.flags &&& k.kSystemTimeValid ≠ 0 then
          timestampToUint64 t.timeInfo.systemTime else 0)
      ∧ (bufferSwitchTime k t).samples =
        (if t.timeInfo.flags &&& k.kSamplePositionValid ≠ 0 then
          samplesToUint64 t.timeInfo.samplePosition else 0)
      ∧ (bufferSwitchTime k t).tcSamples =
        (if t.timeCode.flags &&& k.kTcValid ≠ 0 then
          samplesToUint64 t.timeCode.timeCodeSamples else 0) := by
  unfold bufferSwitchTime
  split_ifs <;> simp

/-- With independent client flags, each client flag is set exactly when its
validity bit is, and no bit outside the three client flags is set. -/
theorem bufferSwitchTime_spec (k : TimeFlagBits) (hk : k.independent) (t : ASIOTime) :
    ((bufferSwitchTime k t).flags &&& k.CASIO_TimeFlag_NanoSecs ≠ 0
        ↔ t.timeInfo.flags &&& k.kSystemTimeValid ≠ 0)
      ∧ ((bufferSwitchTime k t).flags &&& k.CASIO_TimeFlag_Samples ≠ 0
        ↔ t.timeInfo.flags &&& k.kSamplePositionValid ≠ 0)
      ∧ ((bufferSwitchTime k t).flags &&& k.CASIO_TimeFlag_TCSamples ≠ 0
        ↔ t.timeCode.flags &&& k.kTcValid ≠ 0)
      ∧ (bufferSwitchTime k t).flags
          &&& (k.CASIO_TimeFlag_NanoSecs ||| k.CASIO_TimeFlag_Samples
                ||| k.CASIO_TimeFlag_TCSamples)
          = (bufferSwitchTime k t).flags := by
  obtain ⟨hN, hS, hT, hNS, hNT, hST⟩ := hk
  have hSN := (Nat.and_comm _ _).trans hNS
  have hTN := (Nat.and_comm _ _).trans hNT
  have hTS := (Nat.and_comm _ _).trans hST
  rw [bufferSwitchTime_flags]
  refine ⟨?_, ?_, ?_, ?_⟩ <;>
    split_ifs <;>
    simp_all [Nat.and_distrib_right, Nat.and_or_distrib_left]

/-- Two 32-bit words assembled low word first give `hi * 2^32 + lo`. -/
theorem toUint64_of_words (hi lo : Nat) (hhi : hi < 2 ^ 32) (hlo : lo < 2 ^ 32) :
    lo % 2 ^ 32 + (hi % 2 ^ 32) * 2 ^ 32 = hi * 2 ^ 32 + lo := by
  rw [Nat.mod_eq_of_lt hhi, Nat.mod_eq_of_lt hlo, Nat.add_comm]

/-! ## Claims about the slot table -/

/-- C1 (evaluation at the failing input): from the initial state eight devices
are opened and stay open, filling `globalDevices[0..7]`; the counter is 8.  A
ninth `CASIO_OpenDevice` whose driver answers every call with success is not
turned away with a failure status: it takes index 8 and accesses
`globalCallbacks[8]` and `globalDevices[8]`, outside the tables. -/
theorem C1_ninth_open_indexes_past_the_table :
    run eightOpens World.initial = .ok (finalWorld eightOpens)
      ∧ (finalWorld eightOpens).globalNumDevices = 8
      ∧ (∀ i : Fin MAX_OPEN_DEVICES,
          (finalWorld eightOpens).globalDevices i = some (i.val + 1)
            ∧ ((finalWorld eightOpens).heap (i.val + 1)).isSome = true)
      ∧ CASIO_OpenDevice 8 108 (okEnv 8 18) (finalWorld eightOpens)
          = .error Fault.outOfBounds :=
  ⟨rfl, rfl, by decide, rfl⟩

/-- C2: in every state reached from the initial state by a sequence of
`CASIO_OpenDevice` and `CASIO_CloseDevice` calls, every open device `d` (handle
`h`) sits in the table entry of its own index, `globalDevices[d.globalIndex] ==
h`, and every other open device has a different `globalIndex`. -/
theorem C2_open_devices_own_distinct_slots (calls : List Call) (w : World)
    (hrun : run calls World.initial = .ok w) (h : Handle) (d : _CASIO_Device)
    (hopen : w.isOpen h d) :
    w.slot d.globalIndex = some (some h)
      ∧ ∀ h2 d2, w.isOpen h2 d2 → h2 ≠ h → d2.globalIndex ≠ d.globalIndex := by
  have hinv := SlotInv_run calls World.initial w SlotInv_initial hrun
  obtain ⟨-, -, s, hs, hg⟩ := hinv h d hopen
  refine ⟨(slot_eq_some_iff w _ _).2 ⟨s, hs, hg⟩, ?_⟩
  intro h2 d2 hopen2 hne hidx
  obtain ⟨-, -, s2, hs2, hg2⟩ := hinv h2 d2 hopen2
  have : s2 = s := by
    apply Fin.ext
    have := hs2.trans (hidx.trans hs.symm)
    exact_mod_cast this
  subst this
  rw [hg] at hg2
  exact hne (Option.some.inj hg2).symm

/-- C2 at a concrete run: A and B are opened, A is closed, a third device is
opened; B (handle 2) is open and the statement holds for it. -/
theorem C2_witness :
    run callsABcloseAC World.initial = .ok (finalWorld callsABcloseAC)
      ∧ (finalWorld callsABcloseAC).isOpen 2 ((finalWorld callsABcloseAC).deref 2)
      ∧ (finalWorld callsABcloseAC).slot ((finalWorld callsABcloseAC).deref 2).globalIndex
          = some (some 2)
      ∧ ∀ h2 d2, (finalWorld callsABcloseAC).isOpen h2 d2 → h2 ≠ 2 →
          d2.globalIndex ≠ ((finalWorld callsABcloseAC).deref 2).globalIndex :=
  ⟨rfl, rfl,
    C2_open_devices_own_distinct_slots callsABcloseAC (finalWorld callsABcloseAC) rfl 2
      ((finalWorld callsABcloseAC).deref 2) rfl⟩

/-- C3 fails as stated: A is opened with index 0 and B with index 1, A is
closed, and the third device that is opened next gets index 2, not the freed
index 0. -/
theorem C3_counterexample :
    CASIO_OpenDevice 0 100 (okEnv 0 18) World.initial = .ok (finalWorld callsA, 0, some 1)
      ∧ ((finalWorld callsA).deref 1).globalIndex = 0
      ∧ CASIO_OpenDevice 1 101 (okEnv 1 18) (finalWorld callsA)
          = .ok (finalWorld callsAB, 0, some 2)
      ∧ ((finalWorld callsAB).deref 2).globalIndex = 1
      ∧ CASIO_CloseDevice (some 1) (finalWorld callsAB) = .ok (finalWorld callsABcloseA, 0)
      ∧ CASIO_OpenDevice 2 102 (okEnv 2 18) (finalWorld callsABcloseA)
          = .ok (finalWorld callsABcloseAC, 0, some 3)
      ∧ (finalWorld callsABcloseAC).isOpen 3 ((finalWorld callsABcloseAC).deref 3)
      ∧ ((finalWorld callsABcloseAC).deref 3).globalIndex = 2
      ∧ ((finalWorld callsABcloseAC).deref 3).globalIndex ≠ 0 :=
  ⟨rfl, rfl, rfl, rfl, rfl, rfl, rfl, rfl, by decide⟩

/-- C3 as amended: slot assignment starts at 0 and goes up by one; a slot freed
by close is not reused.  Whatever the three drivers are, when A and B are
opened from the initial state, A is closed and a third device is opened, then
A had index 0, B has index 1, closing A empties slot 0 and leaves B in slot 1,
and the third device gets the fresh index 2 while slot 0 stays empty. -/
theorem C3_slots_are_fresh_and_increasing (idA idB idC : Nat) (udA udB udC : Ptr)
    (envA envB envC : OpenEnv) (wA wB wC wD : World) (a b c : Handle)
    (hA : CASIO_OpenDevice idA udA envA World.initial = .ok (wA, 0, some a))
    (hB : CASIO_OpenDevice idB udB envB wA = .ok (wB, 0, some b))
    (hclose : CASIO_CloseDevice (some a) wB = .ok (wC, 0))
    (hC : CASIO_OpenDevice idC udC envC wC = .ok (wD, 0, some c)) :
    ∃ dA dB dC, wA.isOpen a dA ∧ dA.globalIndex = 0
      ∧ wB.isOpen b dB ∧ dB.globalIndex = 1
      ∧ wC.globalDevices 0 = none ∧ wC.globalDevices 1 = some b
      ∧ wD.isOpen c dC ∧ dC.globalIndex = 2
      ∧ wD.globalDevices 0 = none ∧ wD.globalDevices 1 = some b
      ∧ wD.globalDevices 2 = some c := by
  obtain ⟨ha, sA, dA, hsA, hdA, -, -, rfl⟩ := open_success _ _ _ _ _ _ hA
  obtain ⟨hb, sB, dB, hsB, hdB, -, -, rfl⟩ := open_success _ _ _ _ _ _ hB
  simp only [World.initial] at hsA hdA hsB hdB ha hb
  have hsA0 : sA = 0 := by apply Fin.ext; simp only [Fin.val_zero]; omega
  have hsB1 : sB = 1 := by apply Fin.ext; simp only [Fin.val_one]; omega
  subst hsA0 hsB1
  simp only [Option.some.injEq] at ha hb
  subst ha hb
  rcases close_ok_cases _ _ _ _ hclose with
    ⟨-, ⟨hnone, -⟩ | ⟨hd, d, slot, hsome, hheap, hslot, rfl⟩⟩
  · cases hnone
  · simp only [Option.some.injEq] at hsome
    subst hsome
    simp only [World.initial] at hheap
    rw [Function.update_noteq (by decide), Function.update_same, Option.some.injEq] at hheap
    subst hheap
    have hs0 : slot = 0 := by apply Fin.ext; simp only [Fin.val_zero]; omega
    subst hs0
    obtain ⟨hc, sC, dC, hsC, hdC, -, -, rfl⟩ := open_success _ _ _ _ _ _ hC
    simp only [World.initial] at hsC hdC hc
    have hsC2 : sC = 2 := by apply Fin.ext; simp only [Fin.val_two]; omega
    subst hsC2
    simp only [Option.some.injEq] at hc
    subst hc
    refine ⟨dA, dB, dC, ?_, hdA, ?_, by rw [hdB]; rfl, ?_, ?_, ?_, by rw [hdC]; rfl, ?_, ?_, ?_⟩
    · simp [World.isOpen, World.initial]
    · simp [World.isOpen, World.initial]
    · simp [World.initial]
    · simp [World.initial, Function.update]
    · simp [World.isOpen, World.initial]
    · simp [World.initial, Function.update]
    · simp [World.initial, Function.update]
    · simp [World.initial, Function.update]

/-- C3 as amended, at the three cooperative drivers of the sample run. -/
theorem C3_witness :
    CASIO_OpenDevice 0 100 (okEnv 0 18) World.initial = .ok (finalWorld callsA, 0, some 1)
      ∧ CASIO_OpenDevice 1 101 (okEnv 1 18) (finalWorld callsA)
          = .ok (finalWorld callsAB, 0, some 2)
      ∧ CASIO_CloseDevice (some 1) (finalWorld callsAB) = .ok (finalWorld callsABcloseA, 0)
      ∧ CASIO_OpenDevice 2 102 (okEnv 2 18) (finalWorld callsABcloseA)
          = .ok (finalWorld callsABcloseAC, 0, some 3)
      ∧ ∃ dA dB dC, (finalWorld callsA).isOpen 1 dA ∧ dA.globalIndex = 0
        ∧ (finalWorld callsAB).isOpen 2 dB ∧ dB.globalIndex = 1
        ∧ (finalWorld callsABcloseA).globalDevices 0 = none
        ∧ (finalWorld callsABcloseA).globalDevices 1 = some 2
        ∧ (finalWorld callsABcloseAC).isOpen 3 dC ∧ dC.globalIndex = 2
        ∧ (finalWorld callsABcloseAC).globalDevices 0 = none
        ∧ (finalWorld callsABcloseAC).globalDevices 1 = some 2
        ∧ (finalWorld callsABcloseAC).globalDevices 2 = some 3 :=
  ⟨rfl, rfl, rfl, rfl,
    C3_slots_are_fresh_and_increasing 0 1 2 100 101 102 (okEnv 0 18) (okEnv 1 18) (okEnv 2 18)
      (finalWorld callsA) (finalWorld callsAB) (finalWorld callsABcloseA)
      (finalWorld callsABcloseAC) 1 2 3 rfl rfl rfl rfl⟩

/-- C4 fails as stated: an open whose `init` is rejected returns -1 with a null
out-handle but leaves the counter at 1 instead of 0; an open whose
`createBuffers` fails also leaves the freed handle in `globalDevices[0]`. -/
theorem C4_counterexample :
    (∃ w1, CASIO_OpenDevice 0 100 initRejectedEnv World.initial = .ok (w1, -1, none)
        ∧ World.initial.globalNumDevices = 0 ∧ w1.globalNumDevices = 1)
      ∧ (∃ w1, CASIO_OpenDevice 0 100 noBuffersEnv World.initial = .ok (w1, -1, none)
        ∧ World.initial.globalNumDevices = 0 ∧ w1.globalNumDevices = 1
        ∧ World.initial.globalDevices 0 = none ∧ w1.globalDevices 0 = some 1
        ∧ w1.heap 1 = none) :=
  ⟨⟨_, rfl, rfl, rfl⟩, ⟨_, rfl, rfl, rfl, rfl, rfl, rfl⟩⟩

/-- C4 as amended: whenever `CASIO_OpenDevice` returns failure after the driver
was instantiated, the status is -1, the out-handle is null, no record stays
allocated, the counter is one higher than before (the index is used up, the
next open gets the next one), and every table entry other than the one at the
used-up index is as before; when `init` was rejected the whole table is as
before. -/
theorem C4_failed_open_uses_up_one_index (id : Nat) (userData : Ptr) (env : OpenEnv)
    (w w1 : World) (st : Int) (out : CASIO_Device)
    (hcom : env.coCreateInstanceOk = true)
    (h : CASIO_OpenDevice id userData env w = .ok (w1, st, out)) (hfail : st ≠ 0) :
    st = -1 ∧ out = none
      ∧ w1.heap = w.heap
      ∧ w1.globalNumDevices = w.globalNumDevices + 1
      ∧ (∀ j : Fin MAX_OPEN_DEVICES, (j.val : Int) ≠ w.globalNumDevices →
          w1.globalDevices j = w.globalDevices j)
      ∧ (env.initOk = false → w1.globalDevices = w.globalDevices) := by
  rcases open_ok_cases id userData env w w1 st out h with
    ⟨hc, -, -, -⟩ | ⟨-, -, hst, hout, rfl⟩ | ⟨-, hinit, hst, hout, slot, hslot, rfl⟩
      | ⟨-, -, hst, -⟩
  · rw [hcom] at hc
    cases hc
  · exact ⟨hst, hout, rfl, rfl, fun _ _ => rfl, fun _ => rfl⟩
  · refine ⟨hst, hout, rfl, rfl, ?_, ?_⟩
    · intro j hj
      have hne : j ≠ slot := fin_ne_of_val_ne rfl hslot hj
      simp only [Function.update_noteq hne]
    · intro hno
      rw [hinit] at hno
      cases hno
  · exact absurd hst hfail

/-- C4 as amended, at an open that fails at `createBuffers` while A is open. -/
theorem C4_witness :
    noBuffersEnv.coCreateInstanceOk = true
      ∧ CASIO_OpenDevice 1 101 noBuffersEnv (finalWorld callsA)
          = .ok (finalWorld callsAfail, -1, none)
      ∧ (-1 : Int) ≠ 0
      ∧ ((-1 : Int) = -1 ∧ (none : CASIO_Device) = none
      ∧ (finalWorld callsAfail).heap = (finalWorld callsA).heap
      ∧ (finalWorld callsAfail).globalNumDevices = (finalWorld callsA).globalNumDevices + 1
      ∧ (∀ j : Fin MAX_OPEN_DEVICES, (j.val : Int) ≠ (finalWorld callsA).globalNumDevices →
          (finalWorld callsAfail).globalDevices j = (finalWorld callsA).globalDevices j)
      ∧ (noBuffersEnv.initOk = false →
          (finalWorld callsAfail).globalDevices = (finalWorld callsA).globalDevices)) :=
  ⟨rfl, rfl, by decide,
    C4_failed_open_uses_up_one_index 1 101 noBuffersEnv (finalWorld callsA)
      (finalWorld callsAfail) (-1) none rfl rfl (by decide)⟩

/-- C5: for every open device `d` (handle `h`) whose index is table position
`i`, `CASIO_CloseDevice(h)` returns 0, makes `globalDevices[i]` null and leaves
every other table entry as it was. -/
theorem C5_close_clears_only_its_slot (w : World) (h : Handle) (d : _CASIO_Device)
    (i : Fin MAX_OPEN_DEVICES) (hopen : w.isOpen h d) (hslot : (i.val : Int) = d.globalIndex) :
    ∃ w1, CASIO_CloseDevice (some h) w = .ok (w1, 0)
      ∧ w1.globalDevices i = none
      ∧ ∀ j : Fin MAX_OPEN_DEVICES, j ≠ i → w1.globalDevices j = w.globalDevices j := by
  have hidx : 0 ≤ d.globalIndex ∧ d.globalIndex < (MAX_OPEN_DEVICES : Int) := by
    have := i.isLt
    omega
  have hi : (⟨d.globalIndex.toNat, by omega⟩ : Fin MAX_OPEN_DEVICES) = i := by
    apply Fin.ext
    simp only
    omega
  unfold World.isOpen at hopen
  refine ⟨{ w with globalDevices := Function.update w.globalDevices i none,
                   heap := Function.update w.heap h none }, ?_, ?_, ?_⟩
  · unfold CASIO_CloseDevice
    simp only [hopen, dif_pos hidx, hi]
  · simp
  · intro j hj
    simp only [Function.update_noteq hj]

/-- C5 at A in slot 0 and B in slot 1: closing A (handle 1) empties slot 0 and
slot 1 still holds B (handle 2). -/
theorem C5_witness :
    (finalWorld callsAB).isOpen 1 ((finalWorld callsAB).deref 1)
      ∧ (((0 : Fin MAX_OPEN_DEVICES)).val : Int) = ((finalWorld callsAB).deref 1).globalIndex
      ∧ (finalWorld callsAB).globalDevices 1 = some 2
      ∧ ∃ w1, CASIO_CloseDevice (some 1) (finalWorld callsAB) = .ok (w1, 0)
        ∧ w1.globalDevices 0 = none
        ∧ ∀ j : Fin MAX_OPEN_DEVICES, j ≠ 0 →
            w1.globalDevices j = (finalWorld callsAB).globalDevices j :=
  ⟨rfl, rfl, rfl,
    C5_close_clears_only_its_slot (finalWorld callsAB) 1 ((finalWorld callsAB).deref 1) 0 rfl rfl⟩

/-! ## Claims about start and stop -/

/-- C6: for every record whose `started` flag is true, `CASIO_Start` returns
the non-zero status -1 and leaves the record, and so the flag, as it was,
whatever the driver would answer; for every record whose flag is false,
`CASIO_Stop` returns -1 and leaves the record as it was. -/
theorem C6_start_stop_rejected_in_wrong_state (device : _CASIO_Device) (driverAnswer : Bool) :
    (device.started = true →
        (CASIO_Start device driverAnswer).2 = -1
          ∧ (CASIO_Start device driverAnswer).2 ≠ 0
          ∧ (CASIO_Start device driverAnswer).1 = device
          ∧ (CASIO_Start device driverAnswer).1.started = true)
      ∧ (device.started = false →
        (CASIO_Stop device driverAnswer).2 = -1
          ∧ (CASIO_Stop device driverAnswer).2 ≠ 0
          ∧ (CASIO_Stop device driverAnswer).1 = device
          ∧ (CASIO_Stop device driverAnswer).1.started = false) := by
  constructor
  · intro hs
    simp [CASIO_Start, hs]
  · intro hs
    simp [CASIO_Stop, hs]

/-- C6 at a started record and at a stopped record, with a driver that would
answer with success. -/
theorem C6_witness :
    ({ zeroDevice with started := true } : _CASIO_Device).started = true
      ∧ (CASIO_Start { zeroDevice with started := true } true).2 = -1
      ∧ (CASIO_Start { zeroDevice with started := true } true).1.started = true
      ∧ zeroDevice.started = false
      ∧ (CASIO_Stop zeroDevice true).2 = -1
      ∧ (CASIO_Stop zeroDevice true).1.started = false :=
  ⟨rfl,
    ((C6_start_stop_rejected_in_wrong_state { zeroDevice with started := true } true).1 rfl).1,
    ((C6_start_stop_rejected_in_wrong_state { zeroDevice with started := true } true).1 rfl).2.2.2,
    rfl,
    ((C6_start_stop_rejected_in_wrong_state zeroDevice true).2 rfl).1,
    ((C6_start_stop_rejected_in_wrong_state zeroDevice true).2 rfl).2.2.2⟩

/-- C7: for every record, when the driver's `start()` (resp. `stop()`) fails,
`CASIO_Start` (resp. `CASIO_Stop`) returns -1 and the `started` flag keeps its
value; and a call after which the flag differs from before returned 0, with the
flag true after a start and false after a stop. -/
theorem C7_flag_changes_only_on_success (device : _CASIO_Device) :
    ((CASIO_Start device false).2 = -1
        ∧ (CASIO_Start device false).1.started = device.started)
      ∧ ((CASIO_Stop device false).2 = -1
        ∧ (CASIO_Stop device false).1.started = device.started)
      ∧ (∀ driverStart : Bool,
          (CASIO_Start device driverStart).1.started ≠ device.started →
            (CASIO_Start device driverStart).2 = 0
              ∧ (CASIO_Start device driverStart).1.started = true)
      ∧ (∀ driverStop : Bool,
          (CASIO_Stop device driverStop).1.started ≠ device.started →
            (CASIO_Stop device driverStop).2 = 0
              ∧ (CASIO_Stop device driverStop).1.started = false) := by
  refine ⟨?_, ?_, ?_, ?_⟩
  · cases hs : device.started <;> simp [CASIO_Start, hs]
  · cases hs : device.started <;> simp [CASIO_Stop, hs]
  · intro a
    cases hs : device.started <;> cases a <;> simp [CASIO_Start, hs]
  · intro a
    cases hs : device.started <;> cases a <;> simp [CASIO_Stop, hs]

/-- C7 at a stopped record: a successful start changes the flag and returns 0,
a failed start returns -1 and keeps the flag. -/
theorem C7_witness :
    (CASIO_Start zeroDevice true).1.started ≠ zeroDevice.started
      ∧ (CASIO_Start zeroDevice true).2 = 0
      ∧ (CASIO_Start zeroDevice true).1.started = true
      ∧ (CASIO_Start zeroDevice false).2 = -1
      ∧ (CASIO_Start zeroDevice false).1.started = false :=
  ⟨by decide,
    ((C7_flag_changes_only_on_success zeroDevice).2.2.1 true (by decide)).1,
    ((C7_flag_changes_only_on_success zeroDevice).2.2.1 true (by decide)).2,
    (C7_flag_changes_only_on_success zeroDevice).1.1,
    (C7_flag_changes_only_on_success zeroDevice).1.2⟩

/-! ## Claims about the property translator -/

/-- C8: for every assignment of distinct values to the case labels (a `switch`
needs them distinct) and every integer code `t`, `getSampleSize` returns 2 for
the 16-bit integer codes, 3 for the 24-bit integer codes, 4 for the 32-bit
integer codes, the 32-bit containers with 16/18/20/24-bit alignment and the
32-bit float codes, 8 for the 64-bit float codes, and -1 for every code that is
no case label.  The function is total. -/
theorem C8_getSampleSize_table (c : ASIOSampleTypes) (hc : c.labels.Nodup) (t : Int) :
    (t ∈ c.int16 → getSampleSize c t = 2)
      ∧ (t ∈ c.int24 → getSampleSize c t = 3)
      ∧ (t ∈ c.word32 → getSampleSize c t = 4)
      ∧ (t ∈ c.float64 → getSampleSize c t = 8)
      ∧ (t ∉ c.labels → getSampleSize c t = -1) :=
  ⟨getSampleSize_int16 c t, getSampleSize_int24 c hc t, getSampleSize_word32 c hc t,
    getSampleSize_float64 c hc t, getSampleSize_default c t⟩

/-- C8 at the values of the vendor header: `Int16LSB` has width 2, `Int24MSB`
3, `Int32LSB` 4, `Float64LSB` 8, and the unused code 5 gives -1. -/
theorem C8_witness :
    asioSDK.labels.Nodup
      ∧ getSampleSize asioSDK asioSDK.ASIOSTInt16LSB = 2
      ∧ getSampleSize asioSDK asioSDK.ASIOSTInt24MSB = 3
      ∧ getSampleSize asioSDK asioSDK.ASIOSTInt32LSB = 4
      ∧ getSampleSize asioSDK asioSDK.ASIOSTFloat64LSB = 8
      ∧ getSampleSize asioSDK 5 = -1 :=
  ⟨by decide,
    (C8_getSampleSize_table asioSDK (by decide) asioSDK.ASIOSTInt16LSB).1 (by decide),
    (C8_getSampleSize_table asioSDK (by decide) asioSDK.ASIOSTInt24MSB).2.1 (by decide),
    (C8_getSampleSize_table asioSDK (by decide) asioSDK.ASIOSTInt32LSB).2.2.1 (by decide),
    (C8_getSampleSize_table asioSDK (by decide) asioSDK.ASIOSTFloat64LSB).2.2.2.1 (by decide),
    (C8_getSampleSize_table asioSDK (by decide) 5).2.2.2.2 (by decide)⟩

/-- C9 fails as stated: two devices are opened successfully, one with
`ASIOSTInt16LSB` channels and one with `ASIOSTInt24LSB` channels.  Both report
the format `Unknown` and 256 samples, but 512 and 768 bytes, so no byte width
that depends on the reported format gives both byte lengths. -/
theorem C9_counterexample :
    CASIO_OpenDevice 0 100 (okEnv 0 16) World.initial = .ok (finalWorld callsInt16, 0, some 1)
      ∧ CASIO_GetProperties asioSDK ((finalWorld callsInt16).deref 1) = .ok (props16, 0, 0)
      ∧ CASIO_OpenDevice 0 100 (okEnv 0 17) World.initial = .ok (finalWorld callsInt24, 0, some 1)
      ∧ CASIO_GetProperties asioSDK ((finalWorld callsInt24).deref 1) = .ok (props24, 0, 0)
      ∧ props16.sampleFormat = props24.sampleFormat
      ∧ props16.bufferSampleLength = props24.bufferSampleLength
      ∧ props16.bufferByteLength ≠ props24.bufferByteLength
      ∧ ¬ ∃ byteWidth : CASIO_SampleFormat → Int,
          props16.bufferByteLength = props16.bufferSampleLength * byteWidth props16.sampleFormat
            ∧ props24.bufferByteLength
                = props24.bufferSampleLength * byteWidth props24.sampleFormat := by
  refine ⟨rfl, rfl, rfl, rfl, rfl, rfl, by decide, ?_⟩
  rintro ⟨bw, h1, h2⟩
  simp only [props16, props24] at h1 h2
  omega

/-- C9 as amended: for every device record for which the product fits a 32-bit
`long`, `CASIO_GetProperties` returns 0 and reports `bufferByteLength ==
bufferSampleLength * getSampleSize(type of channel 0)`; when the reported
format is `Int32`, `Float32` or `Float64` the factor is 4, 4 or 8. -/
theorem C9_byte_length_from_vendor_type (c : ASIOSampleTypes) (d : _CASIO_Device)
    (hc : c.labels.Nodup)
    (hrange : INT_MIN ≤ d.buffer.currentSize * getSampleSize c (d.channelInfos 0).type
      ∧ d.buffer.currentSize * getSampleSize c (d.channelInfos 0).type ≤ INT_MAX) :
    ∃ props, CASIO_GetProperties c d = .ok (props, d.sampleRate, 0)
      ∧ props.bufferSampleLength = d.buffer.currentSize
      ∧ props.bufferByteLength
          = props.bufferSampleLength * getSampleSize c (d.channelInfos 0).type
      ∧ (props.sampleFormat = CASIO_SampleFormat.Int32 →
          props.bufferByteLength = props.bufferSampleLength * 4)
      ∧ (props.sampleFormat = CASIO_SampleFormat.Float32 →
          props.bufferByteLength = props.bufferSampleLength * 4)
      ∧ (props.sampleFormat = CASIO_SampleFormat.Float64 →
          props.bufferByteLength = props.bufferSampleLength * 8) := by
  have hno : ¬ (d.buffer.currentSize * getSampleSize c (d.channelInfos 0).type < INT_MIN
      ∨ INT_MAX < d.buffer.currentSize * getSampleSize c (d.channelInfos 0).type) := by
    omega
  refine ⟨_, by simp only [CASIO_GetProperties, if_neg hno]; rfl, rfl, rfl, ?_, ?_, ?_⟩
  · intro hf
    simp only at hf
    split_ifs at hf with h1
    rw [h1, getSampleSize_word32 c hc _ (by simp [ASIOSampleTypes.word32])]
  · intro hf
    simp only at hf
    split_ifs at hf with h1 h2
    rw [h2, getSampleSize_word32 c hc _ (by simp [ASIOSampleTypes.word32])]
  · intro hf
    simp only at hf
    split_ifs at hf with h1 h2 h3
    rw [h3, getSampleSize_float64 c hc _ (by simp [ASIOSampleTypes.float64])]

/-- C9 as amended, at device A of the sample run (`ASIOSTInt32LSB` channels,
256 samples). -/
theorem C9_witness :
    asioSDK.labels.Nodup
      ∧ (INT_MIN ≤ ((finalWorld callsA).deref 1).buffer.currentSize
            * getSampleSize asioSDK (((finalWorld callsA).deref 1).channelInfos 0).type
        ∧ ((finalWorld callsA).deref 1).buffer.currentSize
            * getSampleSize asioSDK (((finalWorld callsA).deref 1).channelInfos 0).type ≤ INT_MAX)
      ∧ ∃ props, CASIO_GetProperties asioSDK ((finalWorld callsA).deref 1)
            = .ok (props, ((finalWorld callsA).deref 1).sampleRate, 0)
        ∧ props.bufferSampleLength = ((finalWorld callsA).deref 1).buffer.currentSize
        ∧ props.bufferByteLength
            = props.bufferSampleLength
                * getSampleSize asioSDK (((finalWorld callsA).deref 1).channelInfos 0).type
        ∧ (props.sampleFormat = CASIO_SampleFormat.Int32 →
            props.bufferByteLength = props.bufferSampleLength * 4)
        ∧ (props.sampleFormat = CASIO_SampleFormat.Float32 →
            props.bufferByteLength = props.bufferSampleLength * 4)
        ∧ (props.sampleFormat = CASIO_SampleFormat.Float64 →
            props.bufferByteLength = props.bufferSampleLength * 8) :=
  ⟨by decide, by decide,
    C9_byte_length_from_vendor_type asioSDK ((finalWorld callsA).deref 1) (by decide) (by decide)⟩

/-! ## Claims about the event router -/

/-- C10: for client flags that are independent bits, every time-info record
whose `unsigned long` words hold 32-bit values, every open device and either
buffer half, `onBufferSwitchTimeInfo` calls the client callback with a
BufferSwitch event in whose time flags `NanoSecs` is set iff the driver set
system-time-valid, `Samples` iff sample-position-valid, `TCSamples` iff
timecode-valid, no bit outside these three flags is set, and each flagged field
holds `hi * 2^32 + lo` of the driver's two words. -/
theorem C10_time_flags_match_validity (k : TimeFlagBits) (w : World) (h : Handle)
    (d : _CASIO_Device) (timeInfo : ASIOTime) (doubleBufferIndex directProcess : Int)
    (hk : k.independent) (hwords : timeInfo.wordsInRange) (hopen : w.isOpen h d)
    (hhalf : doubleBufferIndex = 0 ∨ doubleBufferIndex = 1) :
    ∃ event rest time inputs outputs,
      onBufferSwitchTimeInfo k w (some h) timeInfo doubleBufferIndex directProcess
          = .ok (Effect.clientCallback event (some h) d.userData :: rest, 0)
        ∧ event.eventType = CASIO_EventType.BufferSwitch
        ∧ event.payload = CASIO_EventPayload.bufferSwitchEvent time inputs outputs
        ∧ (time.flags &&& k.CASIO_TimeFlag_NanoSecs ≠ 0
            ↔ timeInfo.timeInfo.flags &&& k.kSystemTimeValid ≠ 0)
        ∧ (time.flags &&& k.CASIO_TimeFlag_Samples ≠ 0
            ↔ timeInfo.timeInfo.flags &&& k.kSamplePositionValid ≠ 0)
        ∧ (time.flags &&& k.CASIO_TimeFlag_TCSamples ≠ 0
            ↔ timeInfo.timeCode.flags &&& k.kTcValid ≠ 0)
        ∧ time.flags
            &&& (k.CASIO_TimeFlag_NanoSecs ||| k.CASIO_TimeFlag_Samples
                  ||| k.CASIO_TimeFlag_TCSamples)
            = time.flags
        ∧ (time.flags &&& k.CASIO_TimeFlag_NanoSecs ≠ 0 →
            time.nanoSeconds
              = timeInfo.timeInfo.systemTime.hi * 2 ^ 32 + timeInfo.timeInfo.systemTime.lo)
        ∧ (time.flags &&& k.CASIO_TimeFlag_Samples ≠ 0 →
            time.samples
              = timeInfo.timeInfo.samplePosition.hi * 2 ^ 32 + timeInfo.timeInfo.samplePosition.lo)
        ∧ (time.flags &&& k.CASIO_TimeFlag_TCSamples ≠ 0 →
            time.tcSamples
              = timeInfo.timeCode.timeCodeSamples.hi * 2 ^ 32
                + timeInfo.timeCode.timeCodeSamples.lo) := by
  obtain ⟨f1, f2, f3, f4⟩ := bufferSwitchTime_spec k hk timeInfo
  obtain ⟨g1, g2, g3⟩ := bufferSwitchTime_fields k timeInfo
  obtain ⟨w1, w2, w3, w4, w5, w6⟩ := hwords
  have hidx : 0 ≤ doubleBufferIndex ∧ doubleBufferIndex < 2 := by omega
  unfold World.isOpen at hopen
  have fields :
      ((bufferSwitchTime k timeInfo).flags &&& k.CASIO_TimeFlag_NanoSecs ≠ 0 →
          (bufferSwitchTime k timeInfo).nanoSeconds
            = timeInfo.timeInfo.systemTime.hi * 2 ^ 32 + timeInfo.timeInfo.systemTime.lo)
        ∧ ((bufferSwitchTime k timeInfo).flags &&& k.CASIO_TimeFlag_Samples ≠ 0 →
          (bufferSwitchTime k timeInfo).samples
            = timeInfo.timeInfo.samplePosition.hi * 2 ^ 32 + timeInfo.timeInfo.samplePosition.lo)
        ∧ ((bufferSwitchTime k timeInfo).flags &&& k.CASIO_TimeFlag_TCSamples ≠ 0 →
          (bufferSwitchTime k timeInfo).tcSamples
            = timeInfo.timeCode.timeCodeSamples.hi * 2 ^ 32
              + timeInfo.timeCode.timeCodeSamples.lo) := by
    refine ⟨fun hf => ?_, fun hf => ?_, fun hf => ?_⟩
    · rw [g1, if_pos (f1.1 hf)]
      exact toUint64_of_words _ _ w1 w2
    · rw [g2, if_pos (f2.1 hf)]
      exact toUint64_of_words _ _ w3 w4
    · rw [g3, if_pos (f3.1 hf)]
      exact toUint64_of_words _ _ w5 w6
  have hlt : doubleBufferIndex.toNat < 2 := by omega
  cases hso : d.supportsOutputReady
  · refine ⟨{ eventType := CASIO_EventType.BufferSwitch, handled := some false,
              payload := CASIO_EventPayload.bufferSwitchEvent (bufferSwitchTime k timeInfo)
                (d.bufferPtrs ⟨doubleBufferIndex.toNat, hlt⟩).inputs
                (d.bufferPtrs ⟨doubleBufferIndex.toNat, hlt⟩).outputs },
      [], bufferSwitchTime k timeInfo, _, _, ?_, rfl, rfl, f1, f2, f3, f4, fields⟩
    simp only [onBufferSwitchTimeInfo, hopen, dif_pos hidx, hso]
    rfl
  · refine ⟨{ eventType := CASIO_EventType.BufferSwitch, handled := some false,
              payload := CASIO_EventPayload.bufferSwitchEvent (bufferSwitchTime k timeInfo)
                (d.bufferPtrs ⟨doubleBufferIndex.toNat, hlt⟩).inputs
                (d.bufferPtrs ⟨doubleBufferIndex.toNat, hlt⟩).outputs },
      [Effect.outputReady d.asioDriver], bufferSwitchTime k timeInfo, _, _, ?_, rfl, rfl,
      f1, f2, f3, f4, fields⟩
    simp only [onBufferSwitchTimeInfo, hopen, dif_pos hidx, hso]
    rfl

/-- C10 at device A of the sample run and a record in which only the sample
position (hi 3, lo 5) is valid. -/
theorem C10_witness :
    sdkTimeFlagBits.independent ∧ sampleTime.wordsInRange
      ∧ (finalWorld callsA).isOpen 1 ((finalWorld callsA).deref 1)
      ∧ ∃ event rest time inputs outputs,
        onBufferSwitchTimeInfo sdkTimeFlagBits (finalWorld callsA) (some 1) sampleTime 0 1
            = .ok (Effect.clientCallback event (some 1) ((finalWorld callsA).deref 1).userData
                :: rest, 0)
          ∧ event.eventType = CASIO_EventType.BufferSwitch
          ∧ event.payload = CASIO_EventPayload.bufferSwitchEvent time inputs outputs
          ∧ (time.flags &&& 1 ≠ 0 ↔ sampleTime.timeInfo.flags &&& 1 ≠ 0)
          ∧ (time.flags &&& 2 ≠ 0 ↔ sampleTime.timeInfo.flags &&& 2 ≠ 0)
          ∧ (time.flags &&& 4 ≠ 0 ↔ sampleTime.timeCode.flags &&& 1 ≠ 0)
          ∧ time.flags &&& (1 ||| 2 ||| 4) = time.flags
          ∧ (time.flags &&& 1 ≠ 0 → time.nanoSeconds = 0 * 2 ^ 32 + 0)
          ∧ (time.flags &&& 2 ≠ 0 → time.samples = 3 * 2 ^ 32 + 5)
          ∧ (time.flags &&& 4 ≠ 0 → time.tcSamples = 0 * 2 ^ 32 + 0) :=
  ⟨by decide, by decide, rfl,
    C10_time_flags_match_validity sdkTimeFlagBits (finalWorld callsA) 1
      ((finalWorld callsA).deref 1) sampleTime 0 1 (by decide) (by decide) rfl (Or.inl rfl)⟩

/-! ## Records of opened devices and the loops of the open -/

/-- A `CASIO_OpenDevice` call that returns 0 leaves a live record at the
returned handle whose user data, driver, output-ready flag, clamped channel
counts, buffer infos and destructured pointer tables are as the open built
them. -/
theorem open_success_record (id : Nat) (userData : Ptr) (env : OpenEnv) (w w1 : World)
    (out : CASIO_Device) (h : CASIO_OpenDevice id userData env w = .ok (w1, 0, out)) :
    out = some w.nextHandle ∧ w1.nextHandle = w.nextHandle + 1
      ∧ ∃ d : _CASIO_Device, w1.heap w.nextHandle = some d
        ∧ d.userData = userData ∧ d.asioDriver = env.driver
        ∧ d.supportsOutputReady = env.outputReadyOk
        ∧ d.numInputs = min env.numInputs MAX_INPUT_CHANNELS
        ∧ d.numOutputs = min env.numOutputs MAX_OUTPUT_CHANNELS
        ∧ d.bufferInfos
            = createBuffers env.driverBuffers (d.numInputs + d.numOutputs).toNat
                (initBufferInfos d.numInputs (d.numInputs + d.numOutputs).toNat
                  env.uninit.bufferInfos)
        ∧ d.bufferPtrs
            = destructure d.numInputs (d.numInputs + d.numOutputs).toNat d.bufferInfos
                env.uninit.bufferPtrs := by
  unfold CASIO_OpenDevice at h
  simp only [errorExit] at h
  split at h
  · split at h
    · cases h
    · split at h
      · simp only [Except.ok.injEq, Prod.mk.injEq] at h
        exact absurd h.2.1 (by decide)
      · split at h
        · cases h
        · split at h
          · split at h
            · split at h
              · split at h
                · simp only [Except.ok.injEq, Prod.mk.injEq] at h
                  obtain ⟨rfl, -, rfl⟩ := h
                  refine ⟨rfl, rfl, ?_⟩
                  simp only [Function.update_same]
                  refine ⟨_, rfl, ?_, ?_, ?_, ?_, ?_, ?_, ?_⟩ <;> rfl
                · simp only [Except.ok.injEq, Prod.mk.injEq] at h
                  exact absurd h.2.1 (by decide)
              · simp only [Except.ok.injEq, Prod.mk.injEq] at h
                exact absurd h.2.1 (by decide)
            · simp only [Except.ok.injEq, Prod.mk.injEq] at h
              exact absurd h.2.1 (by decide)
          · cases h
  · simp only [Except.ok.injEq, Prod.mk.injEq] at h
    exact absurd h.2.1 (by decide)

/-- Along a sequence of open and close calls a record that the allocator has
already handed out is either still live and as it was, or gone. -/
theorem record_persists (h : Handle) (d : _CASIO_Device) (calls : List Call) :
    ∀ (w1 w : World), (w1.heap h = some d ∨ w1.heap h = none) → h < w1.nextHandle →
      run calls w1 = .ok w → (w.heap h = some d ∨ w.heap h = none) := by
  induction calls with
  | nil =>
    intro w1 w hd _ hrun
    simp only [run, Except.ok.injEq] at hrun
    subst hrun
    exact hd
  | cons c cs ih =>
    intro w1 w hd hlt hrun
    simp only [run] at hrun
    split at hrun
    · rename_i w2 hstep
      refine ih w2 w ?_ ?_ hrun
      · cases c with
        | openDevice id userData env =>
          simp only [step, Except.map] at hstep
          split at hstep
          · cases hstep
          · rename_i r hr
            simp only [Except.ok.injEq] at hstep
            subst hstep
            rcases open_ok_cases id userData env w1 r.1 r.2.1 r.2.2 hr with
              ⟨-, h1, -, -⟩ | ⟨-, -, -, -, h1⟩ | ⟨-, -, -, -, slot, -, h1⟩
                | ⟨-, -, -, -, slot, d0, -, -, -, -, h1⟩
            · rw [h1]; exact hd
            · rw [h1]; exact hd
            · rw [h1]; exact hd
            · rw [h1]
              simp only
              rw [Function.update_noteq (Nat.ne_of_lt hlt)]
              exact hd
        | closeDevice device =>
          simp only [step, Except.map] at hstep
          split at hstep
          · cases hstep
          · rename_i r hr
            simp only [Except.ok.injEq] at hstep
            subst hstep
            rcases close_ok_cases device w1 r.1 r.2 hr with
              ⟨-, ⟨-, h1⟩ | ⟨hd0, d0, slot, -, -, -, h1⟩⟩
            · rw [h1]; exact hd
            · rw [h1]
              simp only
              by_cases hh : h = hd0
              · subst hh
                right
                simp
              · rw [Function.update_noteq hh]
                exact hd
      · cases c with
        | openDevice id userData env =>
          simp only [step, Except.map] at hstep
          split at hstep
          · cases hstep
          · rename_i r hr
            simp only [Except.ok.injEq] at hstep
            subst hstep
            rcases open_ok_cases id userData env w1 r.1 r.2.1 r.2.2 hr with
              ⟨-, h1, -, -⟩ | ⟨-, -, -, -, h1⟩ | ⟨-, -, -, -, slot, -, h1⟩
                | ⟨-, -, -, -, slot, d0, -, -, -, -, h1⟩
            · rw [h1]; exact hlt
            · rw [h1]; exact Nat.lt_succ_of_lt hlt
            · rw [h1]; exact Nat.lt_succ_of_lt hlt
            · rw [h1]; exact Nat.lt_succ_of_lt hlt
        | closeDevice device =>
          simp only [step, Except.map] at hstep
          split at hstep
          · cases hstep
          · rename_i r hr
            simp only [Except.ok.injEq] at hstep
            subst hstep
            rcases close_ok_cases device w1 r.1 r.2 hr with
              ⟨-, ⟨-, h1⟩ | ⟨hd0, d0, slot, -, -, -, h1⟩⟩
            · rw [h1]; exact hlt
            · rw [h1]; exact hlt
    · cases hrun

/-- One more round of the first loop of the open. -/
theorem initBufferInfos_succ (n : Int) (total : Nat) (infos : Nat → ASIOBufferInfo) :
    initBufferInfos n (total + 1) infos =
      Function.update (initBufferInfos n total infos) total
        (if (total : Int) < n then
          { isInput := ASIOTrue, channelNum := (total : Int), buffers := fun _ => 0 }
        else
          { isInput := ASIOFalse, channelNum := (total : Int) - n, buffers := fun _ => 0 }) := by
  simp only [initBufferInfos, List.range_succ, List.foldl_append, List.foldl_cons, List.foldl_nil]

/-- After the first loop, entry `k` below the bound asks for input channel `k`
when `k` is below `numInputs` and for output channel `k - numInputs` otherwise. -/
theorem initBufferInfos_apply (n : Int) (total : Nat) (infos : Nat → ASIOBufferInfo) (k : Nat)
    (hk : k < total) :
    (initBufferInfos n total infos k).isInput = (if (k : Int) < n then ASIOTrue else ASIOFalse)
      ∧ (initBufferInfos n total infos k).channelNum
          = (if (k : Int) < n then (k : Int) else (k : Int) - n) := by
  induction total with
  | zero => omega
  | succ t ih =>
    rw [initBufferInfos_succ]
    by_cases hkt : k = t
    · subst hkt
      rw [Function.update_same]
      split_ifs <;> exact ⟨rfl, rfl⟩
    · rw [Function.update_noteq hkt]
      exact ih (by omega)

/-- One more round of the destructuring loop. -/
theorem destructure_succ (n : Int) (total : Nat) (infos : Nat → ASIOBufferInfo)
    (ptrs : Fin 2 → BufferPtrs) :
    destructure n (total + 1) infos ptrs =
      if (total : Int) < n then
        fun h =>
          { destructure n total infos ptrs h with
            inputs :=
              Function.update (destructure n total infos ptrs h).inputs total
                ((infos total).buffers h) }
      else
        fun h =>
          { destructure n total infos ptrs h with
            outputs :=
              Function.update (destructure n total infos ptrs h).outputs
                ((total : Int) - n).toNat ((infos total).buffers h) } := by
  simp only [destructure, List.range_succ, List.foldl_append, List.foldl_cons, List.foldl_nil]

/-- After the destructuring loop, `inputs[i]` of either half is the buffer of
entry `i`, for `i` below the bound and below `numInputs`. -/
theorem destructure_inputs (n : Int) (total : Nat) (infos : Nat → ASIOBufferInfo)
    (ptrs : Fin 2 → BufferPtrs) (half : Fin 2) (i : Nat) (hi : i < total) (hin : (i : Int) < n) :
    (destructure n total infos ptrs half).inputs i = (infos i).buffers half := by
  induction total with
  | zero => omega
  | succ t ih =>
    rw [destructure_succ]
    by_cases hit : i = t
    · subst hit
      rw [if_pos hin]
      simp
    · have := ih (by omega)
      split_ifs
      · simp only [Function.update_noteq hit]
        exact this
      · exact this

/-- After the destructuring loop, `outputs[j]` of either half is the buffer of
entry `numInputs + j`, when that entry is below the bound. -/
theorem destructure_outputs (n : Int) (total : Nat) (infos : Nat → ASIOBufferInfo)
    (ptrs : Fin 2 → BufferPtrs) (half : Fin 2) (hn : 0 ≤ n) (j : Nat)
    (hj : n.toNat + j < total) :
    (destructure n total infos ptrs half).outputs j = (infos (n.toNat + j)).buffers half := by
  induction total with
  | zero => omega
  | succ t ih =>
    rw [destructure_succ]
    by_cases hjt : n.toNat + j = t
    · have hnot : ¬ ((t : Int) < n) := by omega
      have hidx : ((t : Int) - n).toNat = j := by omega
      rw [if_neg hnot]
      show Function.update _ _ _ j = _
      rw [hidx, Function.update_same, hjt]
    · have := ih (by omega)
      split_ifs with hlt
      · exact this
      · have hne : j ≠ ((t : Int) - n).toNat := by omega
        simp only [Function.update_noteq hne]
        exact this

/-! ## The event router on live devices -/

/-- A device that was opened and is still live after a sequence of further
calls has the record the open built. -/
theorem opened_record_later (id : Nat) (userData : Ptr) (env : OpenEnv) (w0 w1 w : World)
    (h : Handle) (calls : List Call) (d : _CASIO_Device)
    (hopened : CASIO_OpenDevice id userData env w0 = .ok (w1, 0, some h))
    (hrun : run calls w1 = .ok w) (hlive : w.isOpen h d) : w1.isOpen h d := by
  obtain ⟨hout, hnext, d1, hheap, -⟩ := open_success_record _ _ _ _ _ _ hopened
  simp only [Option.some.injEq] at hout
  subst hout
  unfold World.isOpen at hlive ⊢
  rcases record_persists w0.nextHandle d1 calls w1 w (Or.inl hheap)
      (by rw [hnext]; exact Nat.lt_succ_self _) hrun with h1 | h1
  · rw [hlive] at h1
    rw [hheap, h1]
  · rw [hlive] at h1
    cases h1

/-- For a live device and either half, `onBufferSwitchTimeInfo` calls the client
callback with the event built from the record, then `outputReady()` when the
record says the driver supports it, and nothing else. -/
theorem onBufferSwitchTimeInfo_live (k : TimeFlagBits) (w : World) (h : Handle)
    (d : _CASIO_Device) (timeInfo : ASIOTime) (half : Fin 2) (directProcess : Int)
    (hopen : w.heap h = some d) :
    onBufferSwitchTimeInfo k w (some h) timeInfo (half.val : Int) directProcess
      = .ok (Effect.clientCallback (bufferSwitchEventOf k d timeInfo half) (some h) d.userData
            :: (if d.supportsOutputReady = true then [Effect.outputReady d.asioDriver] else []),
          0) := by
  have hidx : 0 ≤ (half.val : Int) ∧ (half.val : Int) < 2 := by
    have := half.isLt
    omega
  have hhalf : (⟨(half.val : Int).toNat, by omega⟩ : Fin 2) = half := by
    apply Fin.ext
    simp
  cases hso : d.supportsOutputReady <;>
    simp only [onBufferSwitchTimeInfo, hopen, dif_pos hidx, hso, hhalf] <;> rfl

/-- The half index 0 or 1 as a position of `bufferPtrs`. -/
theorem half_of_index (i : Int) (hi : i = 0 ∨ i = 1) : ∃ half : Fin 2, i = (half.val : Int) := by
  rcases hi with rfl | rfl
  · exact ⟨0, rfl⟩
  · exact ⟨1, rfl⟩

/-- Distinct case labels: the selector-supported code is none of the eight
queried codes, and each label differs from the labels before it in the
`switch`. -/
theorem selectors_distinct (s : ASIOSelectors) (hs : s.labels.Nodup) :
    s.kAsioSelectorSupported ∉ s.supported
      ∧ s.kAsioEngineVersion ≠ s.kAsioSelectorSupported
      ∧ s.kAsioSupportsTimeInfo ≠ s.kAsioSelectorSupported
      ∧ s.kAsioSupportsTimeInfo ≠ s.kAsioEngineVersion
      ∧ s.kAsioSupportsTimeInfo ≠ s.kAsioResetRequest
      ∧ s.kAsioSupportsTimeInfo ≠ s.kAsioBufferSizeChange
      ∧ s.kAsioSupportsTimeInfo ≠ s.kAsioResyncRequest
      ∧ s.kAsioSupportsTimeInfo ≠ s.kAsioLatenciesChanged
      ∧ s.kAsioSupportsTimeCode ≠ s.kAsioSelectorSupported
      ∧ s.kAsioSupportsTimeCode ≠ s.kAsioEngineVersion
      ∧ s.kAsioSupportsTimeCode ≠ s.kAsioResetRequest
      ∧ s.kAsioSupportsTimeCode ≠ s.kAsioBufferSizeChange
      ∧ s.kAsioSupportsTimeCode ≠ s.kAsioResyncRequest
      ∧ s.kAsioSupportsTimeCode ≠ s.kAsioLatenciesChanged
      ∧ s.kAsioSupportsTimeCode ≠ s.kAsioSupportsTimeInfo
      ∧ s.kAsioOverload ≠ s.kAsioSelectorSupported
      ∧ s.kAsioOverload ≠ s.kAsioEngineVersion
      ∧ s.kAsioOverload ≠ s.kAsioResetRequest
      ∧ s.kAsioOverload ≠ s.kAsioBufferSizeChange
      ∧ s.kAsioOverload ≠ s.kAsioResyncRequest
      ∧ s.kAsioOverload ≠ s.kAsioLatenciesChanged
      ∧ s.kAsioOverload ≠ s.kAsioSupportsTimeInfo
      ∧ s.kAsioOverload ≠ s.kAsioSupportsTimeCode := by
  simp only [ASIOSelectors.labels, ASIOSelectors.supported, List.nodup_cons, List.mem_cons,
    List.mem_singleton, List.not_mem_nil, not_or, or_false, List.nodup_nil, and_true,
    not_false_eq_true] at hs
  simp only [ASIOSelectors.supported, List.mem_cons, List.mem_singleton, List.not_mem_nil,
    not_or, or_false]
  obtain ⟨⟨n01, n02, n03, n04, n05, n06, n07, n08⟩,
    ⟨n12, n13, n14, n15, n16, n17, n18⟩,
    ⟨n23, n24, n25, n26, n27, n28⟩,
    ⟨n34, n35, n36, n37, n38⟩,
    ⟨n45, n46, n47, n48⟩,
    ⟨n56, n57, n58⟩,
    ⟨n67, n68⟩,
    n78⟩ := hs
  exact ⟨⟨n01, n02, n03, n04, n05, n06, n07, n08⟩,
    Ne.symm n01,
    Ne.symm n06,
    Ne.symm n16,
    Ne.symm n26,
    Ne.symm n36,
    Ne.symm n46,
    Ne.symm n56,
    Ne.symm n07,
    Ne.symm n17,
    Ne.symm n27,
    Ne.symm n37,
    Ne.symm n47,
    Ne.symm n57,
    Ne.symm n67,
    Ne.symm n08,
    Ne.symm n18,
    Ne.symm n28,
    Ne.symm n38,
    Ne.symm n48,
    Ne.symm n58,
    Ne.symm n68,
    Ne.symm n78⟩


/-! ## Claims about the trampolines and the buffer switch -/

/-- C11: for every slot index `x`, every state in which `globalDevices[x]` holds
the handle of a live device, and every buffer-switch notification entering
through trampoline `x` (`onBufferSwitchTimeInfo_x` and `onBufferSwitch_x`, with
half index 0 or 1), the client callback is invoked exactly once, with the
handle stored in `globalDevices[x]` and with that device's user data. -/
theorem C11_notification_reaches_the_slots_device (k : TimeFlagBits)
    (x : Fin MAX_OPEN_DEVICES) (w : World) (h : Handle) (d : _CASIO_Device)
    (timeInfo : ASIOTime) (answer : SamplePositionAnswer)
    (doubleBufferIndex directProcess : Int)
    (hslot : w.globalDevices x = some h) (hopen : w.isOpen h d)
    (hhalf : doubleBufferIndex = 0 ∨ doubleBufferIndex = 1) :
    (∃ event effects,
        onBufferSwitchTimeInfo_x k x w timeInfo doubleBufferIndex directProcess
            = .ok (effects, 0)
          ∧ effects.filter Effect.isClientCallback
              = [Effect.clientCallback event (some h) d.userData])
      ∧ (∃ event effects,
        onBufferSwitch_x k x w answer doubleBufferIndex directProcess = .ok effects
          ∧ effects.filter Effect.isClientCallback
              = [Effect.clientCallback event (some h) d.userData]) := by
  obtain ⟨half, rfl⟩ := half_of_index _ hhalf
  unfold World.isOpen at hopen
  constructor
  · have e := onBufferSwitchTimeInfo_live k w h d timeInfo half directProcess hopen
    refine ⟨bufferSwitchEventOf k d timeInfo half, _,
      (by rw [onBufferSwitchTimeInfo_x, hslot]; exact e), ?_⟩
    cases d.supportsOutputReady <;> rfl
  · have e : onBufferSwitch_x k x w answer (half.val : Int) directProcess
        = .ok (Effect.clientCallback (bufferSwitchEventOf k d (backDoorTimeInfo k answer) half)
                (some h) d.userData
              :: (if d.supportsOutputReady = true then [Effect.outputReady d.asioDriver]
                  else [])) := by
      rw [onBufferSwitch_x, hslot]
      simp only [onBufferSwitch, hopen]
      rw [onBufferSwitchTimeInfo_live k w h d _ half directProcess hopen]
      rfl
    refine ⟨bufferSwitchEventOf k d (backDoorTimeInfo k answer) half, _, e, ?_⟩
    cases d.supportsOutputReady <;> rfl

/-- C11 at A bound to slot 0 (user data 100) and B to slot 1 (user data 101): a
notification on slot 0 is delivered once, with A's handle and A's user data. -/
theorem C11_witness :
    (finalWorld callsAB).globalDevices 0 = some 1
      ∧ (finalWorld callsAB).isOpen 1 ((finalWorld callsAB).deref 1)
      ∧ ((finalWorld callsAB).deref 1).userData = 100
      ∧ ((finalWorld callsAB).deref 2).userData = 101
      ∧ (∃ event effects,
          onBufferSwitchTimeInfo_x sdkTimeFlagBits 0 (finalWorld callsAB) sampleTime 0 1
              = .ok (effects, 0)
            ∧ effects.filter Effect.isClientCallback
                = [Effect.clientCallback event (some 1) ((finalWorld callsAB).deref 1).userData])
      ∧ (∃ event effects,
          onBufferSwitch_x sdkTimeFlagBits 0 (finalWorld callsAB) sampleAnswer 0 1 = .ok effects
            ∧ effects.filter Effect.isClientCallback
                = [Effect.clientCallback event (some 1) ((finalWorld callsAB).deref 1).userData]) :=
  ⟨rfl, rfl, rfl, rfl,
    C11_notification_reaches_the_slots_device sdkTimeFlagBits 0 (finalWorld callsAB) 1
      ((finalWorld callsAB).deref 1) sampleTime sampleAnswer 0 1 rfl rfl (Or.inl rfl)⟩

/-- C12: for every device that was opened successfully and is still open, and
every buffer-switch notification handled by `onBufferSwitchTimeInfo`, the
trace of effects starts with the client callback; when the driver advertised
the output-ready optimization at open the trace is exactly the callback
followed by one `outputReady()`, and when it did not the trace has no
`outputReady()` at all. -/
theorem C12_output_ready_follows_the_callback (k : TimeFlagBits) (id : Nat) (userData : Ptr)
    (env : OpenEnv) (w0 w1 w : World) (h : Handle) (calls : List Call) (d : _CASIO_Device)
    (timeInfo : ASIOTime) (doubleBufferIndex directProcess : Int)
    (hopened : CASIO_OpenDevice id userData env w0 = .ok (w1, 0, some h))
    (hrun : run calls w1 = .ok w) (hlive : w.isOpen h d)
    (hhalf : doubleBufferIndex = 0 ∨ doubleBufferIndex = 1) :
    ∃ event effects,
      onBufferSwitchTimeInfo k w (some h) timeInfo doubleBufferIndex directProcess
          = .ok (effects, 0)
        ∧ effects
            = Effect.clientCallback event (some h) userData
              :: (if env.outputReadyOk = true then [Effect.outputReady env.driver] else [])
        ∧ (env.outputReadyOk = true →
            effects = [Effect.clientCallback event (some h) userData,
                       Effect.outputReady env.driver])
        ∧ (env.outputReadyOk = false → effects.filter Effect.isOutputReady = []) := by
  have h1 := opened_record_later id userData env w0 w1 w h calls d hopened hrun hlive
  obtain ⟨hout, -, d1, hheap, hud, hdrv, hso, -⟩ := open_success_record _ _ _ _ _ _ hopened
  simp only [Option.some.injEq] at hout
  subst hout
  unfold World.isOpen at h1 hlive
  rw [hheap, Option.some.injEq] at h1
  subst h1
  obtain ⟨half, rfl⟩ := half_of_index _ hhalf
  refine ⟨bufferSwitchEventOf k d1 timeInfo half, _,
    onBufferSwitchTimeInfo_live k w _ d1 timeInfo half directProcess hlive, ?_, ?_, ?_⟩
  · rw [hud, hso, hdrv]
  · intro hadv
    rw [hud, hso, hdrv, if_pos hadv]
  · intro hadv
    rw [hso, hadv]
    rfl

/-- C12 at a device whose driver advertises the optimization and at one whose
driver does not. -/
theorem C12_witness :
    CASIO_OpenDevice 0 100 (okEnv 0 18) World.initial = .ok (finalWorld callsA, 0, some 1)
      ∧ run [Call.openDevice 1 101 (okEnv 1 18)] (finalWorld callsA) = .ok (finalWorld callsAB)
      ∧ (finalWorld callsAB).isOpen 1 ((finalWorld callsAB).deref 1)
      ∧ (∃ event effects,
          onBufferSwitchTimeInfo sdkTimeFlagBits (finalWorld callsAB) (some 1) sampleTime 1 0
              = .ok (effects, 0)
            ∧ effects
                = Effect.clientCallback event (some 1) 100
                  :: (if (okEnv 0 18).outputReadyOk = true then
                        [Effect.outputReady (okEnv 0 18).driver] else [])
            ∧ ((okEnv 0 18).outputReadyOk = true →
                effects = [Effect.clientCallback event (some 1) 100,
                           Effect.outputReady (okEnv 0 18).driver])
            ∧ ((okEnv 0 18).outputReadyOk = false → effects.filter Effect.isOutputReady = []))
      ∧ CASIO_OpenDevice 0 100 (noOutputReadyEnv 7) World.initial
          = .ok (finalWorld callsQuiet, 0, some 1)
      ∧ (∃ event effects,
          onBufferSwitchTimeInfo sdkTimeFlagBits (finalWorld callsQuiet) (some 1) sampleTime 0 0
              = .ok (effects, 0)
            ∧ effects
                = Effect.clientCallback event (some 1) 100
                  :: (if (noOutputReadyEnv 7).outputReadyOk = true then
                        [Effect.outputReady (noOutputReadyEnv 7).driver] else [])
            ∧ ((noOutputReadyEnv 7).outputReadyOk = true →
                effects = [Effect.clientCallback event (some 1) 100,
                           Effect.outputReady (noOutputReadyEnv 7).driver])
            ∧ ((noOutputReadyEnv 7).outputReadyOk = false →
                effects.filter Effect.isOutputReady = [])) :=
  ⟨rfl, rfl, rfl,
    C12_output_ready_follows_the_callback sdkTimeFlagBits 0 100 (okEnv 0 18) World.initial
      (finalWorld callsA) (finalWorld callsAB) 1 [Call.openDevice 1 101 (okEnv 1 18)]
      ((finalWorld callsAB).deref 1) sampleTime 1 0 rfl rfl rfl (Or.inr rfl),
    rfl,
    C12_output_ready_follows_the_callback sdkTimeFlagBits 0 100 (noOutputReadyEnv 7)
      World.initial (finalWorld callsQuiet) (finalWorld callsQuiet) 1 []
      ((finalWorld callsQuiet).deref 1) sampleTime 0 0 rfl rfl rfl (Or.inl rfl)⟩


/-! ## Claims about the message selector -/

/-- C13: for distinct case labels, every device handle (null included), every
slot and state, and every value, message and opt argument, `onAsioMessage`
answers the engine-version selector with 2, the supports-time-info selector
with 1 and the supports-time-code selector with 0. -/
theorem C13_capability_answers (s : ASIOSelectors) (hs : s.labels.Nodup) (device : CASIO_Device)
    (x : Fin MAX_OPEN_DEVICES) (w : World) (value : Int) (message opt : Ptr) :
    (onAsioMessage s device s.kAsioEngineVersion value message opt).2 = 2
      ∧ (onAsioMessage s device s.kAsioSupportsTimeInfo value message opt).2 = 1
      ∧ (onAsioMessage s device s.kAsioSupportsTimeCode value message opt).2 = 0
      ∧ (onAsioMessage_x s x w s.kAsioEngineVersion value message opt).2 = 2
      ∧ (onAsioMessage_x s x w s.kAsioSupportsTimeInfo value message opt).2 = 1
      ∧ (onAsioMessage_x s x w s.kAsioSupportsTimeCode value message opt).2 = 0 := by
  obtain ⟨-, h1, h2, h3, h4, h5, h6, h7, h8, h9, h10, h11, h12, h13, h14, -⟩ :=
    selectors_distinct s hs
  simp only [onAsioMessage_x, onAsioMessage, if_neg h1, if_neg h2, if_neg h3, if_neg h4,
    if_neg h5, if_neg h6, if_neg h7, if_neg h8, if_neg h9, if_neg h10, if_neg h11, if_neg h12,
    if_neg h13, if_neg h14, if_true, and_self]

/-- C13 at the selector values of the vendor header, for a null device, a
non-null device and an empty slot. -/
theorem C13_witness :
    sdkSelectors.labels.Nodup
      ∧ (onAsioMessage sdkSelectors none 2 0 0 0).2 = 2
      ∧ (onAsioMessage sdkSelectors (some 1) 7 5 0 0).2 = 1
      ∧ (onAsioMessage sdkSelectors none 8 0 0 0).2 = 0
      ∧ (onAsioMessage_x sdkSelectors 3 World.initial 2 0 0 0).2 = 2 :=
  ⟨by decide,
    (C13_capability_answers sdkSelectors (by decide) none 3 World.initial 0 0 0).1,
    (C13_capability_answers sdkSelectors (by decide) (some 1) 3 World.initial 5 0 0).2.1,
    (C13_capability_answers sdkSelectors (by decide) none 3 World.initial 0 0 0).2.2.1,
    (C13_capability_answers sdkSelectors (by decide) none 3 World.initial 0 0 0).2.2.2.1⟩

/-- C14: for distinct case labels and every queried value `v`, `onAsioMessage`
with the selector-supported selector returns 1 exactly when `v` is one of the
eight listed selectors and 0 for every other `v`, the selector-supported code
itself included. -/
theorem C14_selector_supported_table (s : ASIOSelectors) (hs : s.labels.Nodup)
    (device : CASIO_Device) (v : Int) (message opt : Ptr) :
    ((onAsioMessage s device s.kAsioSelectorSupported v message opt).2 = 1 ↔ v ∈ s.supported)
      ∧ (v ∉ s.supported →
          (onAsioMessage s device s.kAsioSelectorSupported v message opt).2 = 0)
      ∧ (onAsioMessage s device s.kAsioSelectorSupported s.kAsioSelectorSupported message opt).2
          = 0 := by
  have hself := (selectors_distinct s hs).1
  have key : ∀ u : Int,
      (onAsioMessage s device s.kAsioSelectorSupported u message opt).2
        = if u ∈ s.supported then 1 else 0 := by
    intro u
    simp only [onAsioMessage, if_true, ASIOSelectors.supported, List.mem_cons,
      List.mem_singleton, List.not_mem_nil, or_false]
    split_ifs <;> rfl
  refine ⟨?_, ?_, ?_⟩
  · rw [key]
    split_ifs with h <;> simp [h]
  · intro h
    rw [key, if_neg h]
  · rw [key, if_neg hself]

/-- C14 at the selector values of the vendor header: overload (15) is supported,
the code 9 and the selector-supported code 1 are not. -/
theorem C14_witness :
    sdkSelectors.labels.Nodup
      ∧ (onAsioMessage sdkSelectors none 1 15 0 0).2 = 1
      ∧ (onAsioMessage sdkSelectors none 1 9 0 0).2 = 0
      ∧ (onAsioMessage sdkSelectors none 1 1 0 0).2 = 0 :=
  ⟨by decide,
    (C14_selector_supported_table sdkSelectors (by decide) none 15 0 0).1.2 (by decide),
    (C14_selector_supported_table sdkSelectors (by decide) none 9 0 0).2.1 (by decide),
    (C14_selector_supported_table sdkSelectors (by decide) none 1 0 0).2.2⟩

/-- C15 fails as stated: the overload selector is none of the three excepted
selectors, and `onAsioMessage` logs it and answers 1, not 0. -/
theorem C15_counterexample :
    sdkSelectors.kAsioOverload ≠ sdkSelectors.kAsioSelectorSupported
      ∧ sdkSelectors.kAsioOverload ≠ sdkSelectors.kAsioEngineVersion
      ∧ sdkSelectors.kAsioOverload ≠ sdkSelectors.kAsioSupportsTimeInfo
      ∧ onAsioMessage sdkSelectors none sdkSelectors.kAsioOverload 0 0 0
          = (logMessage "kAsioOverload!", 1)
      ∧ (onAsioMessage sdkSelectors none sdkSelectors.kAsioOverload 0 0 0).2 ≠ 0 :=
  ⟨by decide, by decide, by decide, rfl, by decide⟩

/-- C15 as amended: for distinct case labels and every selector other than
selector-supported, engine version and supports-time-info, `onAsioMessage`
answers 0 unless the selector is overload, which is logged and answered with
1. -/
theorem C15_other_selectors (s : ASIOSelectors) (hs : s.labels.Nodup) (device : CASIO_Device)
    (selector value : Int) (message opt : Ptr)
    (h1 : selector ≠ s.kAsioSelectorSupported) (h2 : selector ≠ s.kAsioEngineVersion)
    (h3 : selector ≠ s.kAsioSupportsTimeInfo) :
    (selector ≠ s.kAsioOverload → (onAsioMessage s device selector value message opt).2 = 0)
      ∧ (selector = s.kAsioOverload →
          onAsioMessage s device selector value message opt
            = (logMessage "kAsioOverload!", 1)) := by
  obtain ⟨-, -, -, -, -, -, -, -, -, -, -, -, -, -, -, g1, g2, g3, g4, g5, g6, g7, g8⟩ :=
    selectors_distinct s hs
  constructor
  · intro h4
    simp only [onAsioMessage, if_neg h1, if_neg h2, if_neg h3, if_neg h4]
    split_ifs <;> rfl
  · intro h4
    subst h4
    simp only [onAsioMessage, if_neg g1, if_neg g2, if_neg g3, if_neg g4, if_neg g5,
      if_neg g6, if_neg g7, if_neg g8, if_true]

/-- C15 as amended, at reset request (3), an unrecognised selector (99) and
overload (15). -/
theorem C15_witness :
    sdkSelectors.labels.Nodup ∧ (3 : Int) ≠ sdkSelectors.kAsioSelectorSupported
      ∧ (3 : Int) ≠ sdkSelectors.kAsioEngineVersion
      ∧ (3 : Int) ≠ sdkSelectors.kAsioSupportsTimeInfo
      ∧ (onAsioMessage sdkSelectors none 3 0 0 0).2 = 0
      ∧ (onAsioMessage sdkSelectors none 99 0 0 0).2 = 0
      ∧ onAsioMessage sdkSelectors none 15 0 0 0 = (logMessage "kAsioOverload!", 1) :=
  ⟨by decide, by decide, by decide, by decide,
    (C15_other_selectors sdkSelectors (by decide) none 3 0 0 0 (by decide) (by decide)
      (by decide)).1 (by decide),
    (C15_other_selectors sdkSelectors (by decide) none 99 0 0 0 (by decide) (by decide)
      (by decide)).1 (by decide),
    (C15_other_selectors sdkSelectors (by decide) none 15 0 0 0 (by decide) (by decide)
      (by decide)).2 rfl⟩


/-! ## Claims about the events -/

/-- C16 fails as stated: the Log event of `logMessage` reaches the client
callback with `handled` never written, and the SampleRateChanged event of
`onSampleRateDidChange` for rate 0 reaches it with `handled == false`. -/
theorem C16_counterexample :
    (logMessage "hello from CASIO_Init").map Effect.handled = [some none]
      ∧ (logMessage "hello from CASIO_Init").map Effect.handled ≠ [some (some true)]
      ∧ (finalWorld callsA).isOpen 1 ((finalWorld callsA).deref 1)
      ∧ (onSampleRateDidChange (finalWorld callsA) (some 1) 0).map (List.map Effect.handled)
          = .ok [some (some false)]
      ∧ (onSampleRateDidChange (finalWorld callsA) (some 1) 0).map (List.map Effect.handled)
          ≠ .ok [some (some true)] := by
  refine ⟨rfl, by decide, rfl, rfl, ?_⟩
  intro h
  have h2 : (Except.ok [some (some false)] : Except Fault (List (Option (Option Bool))))
      = .ok [some (some true)] := h
  simp at h2

/-- C16 as amended: for every message, `logMessage` makes one client callback
with a Log event that carries the message unchanged and whose `handled` member
the router has not written; for every live device and every rate,
`onSampleRateDidChange` makes one client callback with a SampleRateChanged
event that carries the rate and has `handled == false`. -/
theorem C16_events_are_passed_unhandled (w : World) (h : Handle) (d : _CASIO_Device)
    (message : String) (sRate : Nat) (hopen : w.isOpen h d) :
    (∃ event, logMessage message = [Effect.clientCallback event none 0]
        ∧ event.eventType = CASIO_EventType.Log
        ∧ event.payload = CASIO_EventPayload.logEvent message
        ∧ event.handled = none)
      ∧ (∃ event,
          onSampleRateDidChange w (some h) sRate
              = .ok [Effect.clientCallback event (some h) d.userData]
            ∧ event.eventType = CASIO_EventType.SampleRateChanged
            ∧ event.payload = CASIO_EventPayload.sampleRateChangedEvent sRate
            ∧ event.handled = some false) := by
  unfold World.isOpen at hopen
  refine ⟨⟨_, rfl, rfl, rfl, rfl⟩, ⟨{ eventType := CASIO_EventType.SampleRateChanged
                                      handled := some false
                                      payload := CASIO_EventPayload.sampleRateChangedEvent sRate },
    ?_, rfl, rfl, rfl⟩⟩
  simp only [onSampleRateDidChange, hopen]

/-- C16 as amended, at device A of the sample run, a log text and rate 0. -/
theorem C16_witness :
    (finalWorld callsA).isOpen 1 ((finalWorld callsA).deref 1)
      ∧ (∃ event, logMessage "kAsioResetRequest" = [Effect.clientCallback event none 0]
          ∧ event.eventType = CASIO_EventType.Log
          ∧ event.payload = CASIO_EventPayload.logEvent "kAsioResetRequest"
          ∧ event.handled = none)
      ∧ (∃ event,
          onSampleRateDidChange (finalWorld callsA) (some 1) 0
              = .ok [Effect.clientCallback event (some 1) ((finalWorld callsA).deref 1).userData]
            ∧ event.eventType = CASIO_EventType.SampleRateChanged
            ∧ event.payload = CASIO_EventPayload.sampleRateChangedEvent 0
            ∧ event.handled = some false) :=
  ⟨rfl,
    C16_events_are_passed_unhandled (finalWorld callsA) 1 ((finalWorld callsA).deref 1)
      "kAsioResetRequest" 0 rfl⟩

/-- C17: for every device opened successfully by a driver that reports
non-negative channel counts, still open after any further calls, and each half,
the channel counts are at most 64 and the BufferSwitch event for that half
carries `inputs[i] == bufferInfos[i].buffers[half]` for every `i < numInputs`
and `outputs[j] == bufferInfos[numInputs + j].buffers[half]` for every `j <
numOutputs`; these are the addresses the driver stored, and entry `k` was
requested as input channel `k` below `numInputs` and as output channel `k -
numInputs` from there on. -/
theorem C17_event_tables_are_the_drivers_buffers (k : TimeFlagBits) (id : Nat)
    (userData : Ptr) (env : OpenEnv) (w0 w1 w : World) (h : Handle) (calls : List Call)
    (d : _CASIO_Device) (timeInfo : ASIOTime) (half : Fin 2) (directProcess : Int)
    (hopened : CASIO_OpenDevice id userData env w0 = .ok (w1, 0, some h))
    (hin : 0 ≤ env.numInputs) (hout : 0 ≤ env.numOutputs)
    (hrun : run calls w1 = .ok w) (hlive : w.isOpen h d) :
    d.numInputs ≤ 64 ∧ d.numOutputs ≤ 64
      ∧ ∃ event rest time inputs outputs,
        onBufferSwitchTimeInfo k w (some h) timeInfo (half.val : Int) directProcess
            = .ok (Effect.clientCallback event (some h) userData :: rest, 0)
          ∧ event.payload = CASIO_EventPayload.bufferSwitchEvent time inputs outputs
          ∧ (∀ i : Nat, (i : Int) < d.numInputs →
              inputs i = (d.bufferInfos i).buffers half
                ∧ (d.bufferInfos i).buffers half = env.driverBuffers i half
                ∧ (d.bufferInfos i).isInput = ASIOTrue
                ∧ (d.bufferInfos i).channelNum = (i : Int))
          ∧ (∀ j : Nat, (j : Int) < d.numOutputs →
              outputs j = (d.bufferInfos (d.numInputs.toNat + j)).buffers half
                ∧ (d.bufferInfos (d.numInputs.toNat + j)).buffers half
                    = env.driverBuffers (d.numInputs.toNat + j) half
                ∧ (d.bufferInfos (d.numInputs.toNat + j)).isInput = ASIOFalse
                ∧ (d.bufferInfos (d.numInputs.toNat + j)).channelNum = (j : Int)) := by
  have h1 := opened_record_later id userData env w0 w1 w h calls d hopened hrun hlive
  obtain ⟨hout0, -, d1, hheap, hud, -, -, hni, hno, hinfos, hptrs⟩ :=
    open_success_record _ _ _ _ _ _ hopened
  simp only [Option.some.injEq] at hout0
  subst hout0
  unfold World.isOpen at h1 hlive
  rw [hheap, Option.some.injEq] at h1
  subst h1
  have hni0 : 0 ≤ d1.numInputs := by
    rw [hni]; unfold MAX_INPUT_CHANNELS; omega
  have hno0 : 0 ≤ d1.numOutputs := by
    rw [hno]; unfold MAX_OUTPUT_CHANNELS; omega
  have hni64 : d1.numInputs ≤ 64 := by
    rw [hni]; unfold MAX_INPUT_CHANNELS; omega
  have hno64 : d1.numOutputs ≤ 64 := by
    rw [hno]; unfold MAX_OUTPUT_CHANNELS; omega
  refine ⟨hni64, hno64, bufferSwitchEventOf k d1 timeInfo half, _, _, _, _,
    (by rw [← hud]; exact onBufferSwitchTimeInfo_live k w _ d1 timeInfo half directProcess hlive),
    rfl, ?_, ?_⟩
  · intro i hi
    have hit : i < (d1.numInputs + d1.numOutputs).toNat := by omega
    have hinit := initBufferInfos_apply d1.numInputs (d1.numInputs + d1.numOutputs).toNat
      env.uninit.bufferInfos i hit
    refine ⟨?_, ?_, ?_, ?_⟩
    · rw [hptrs]
      exact destructure_inputs _ _ _ _ half i hit hi
    · rw [hinfos]
      simp only [createBuffers, if_pos hit]
    · rw [hinfos]
      simp only [createBuffers, if_pos hit]
      rw [hinit.1, if_pos hi]
    · rw [hinfos]
      simp only [createBuffers, if_pos hit]
      rw [hinit.2, if_pos hi]
  · intro j hj
    have hjt : d1.numInputs.toNat + j < (d1.numInputs + d1.numOutputs).toNat := by omega
    have hnot : ¬ (((d1.numInputs.toNat + j : Nat) : Int) < d1.numInputs) := by omega
    have hinit := initBufferInfos_apply d1.numInputs (d1.numInputs + d1.numOutputs).toNat
      env.uninit.bufferInfos (d1.numInputs.toNat + j) hjt
    refine ⟨?_, ?_, ?_, ?_⟩
    · rw [hptrs]
      exact destructure_outputs _ _ _ _ half hni0 j hjt
    · rw [hinfos]
      simp only [createBuffers, if_pos hjt]
    · rw [hinfos]
      simp only [createBuffers, if_pos hjt]
      rw [hinit.1, if_neg hnot]
    · rw [hinfos]
      simp only [createBuffers, if_pos hjt]
      rw [hinit.2, if_neg hnot]
      omega

/-- C17 at device A of the sample run (two inputs, two outputs) and half 1. -/
theorem C17_witness :
    CASIO_OpenDevice 0 100 (okEnv 0 18) World.initial = .ok (finalWorld callsA, 0, some 1)
      ∧ (0 : Int) ≤ (okEnv 0 18).numInputs ∧ (0 : Int) ≤ (okEnv 0 18).numOutputs
      ∧ run [Call.openDevice 1 101 (okEnv 1 18)] (finalWorld callsA) = .ok (finalWorld callsAB)
      ∧ (finalWorld callsAB).isOpen 1 ((finalWorld callsAB).deref 1)
      ∧ (((finalWorld callsAB).deref 1).bufferPtrs 1).inputs 1 = 16384
      ∧ (((finalWorld callsAB).deref 1).bufferPtrs 1).outputs 0 = 24576
      ∧ (((finalWorld callsAB).deref 1).numInputs ≤ 64
        ∧ ((finalWorld callsAB).deref 1).numOutputs ≤ 64
        ∧ ∃ event rest time inputs outputs,
          onBufferSwitchTimeInfo sdkTimeFlagBits (finalWorld callsAB) (some 1) sampleTime
              (((1 : Fin 2)).val : Int) 0
              = .ok (Effect.clientCallback event (some 1) 100 :: rest, 0)
            ∧ event.payload = CASIO_EventPayload.bufferSwitchEvent time inputs outputs
            ∧ (∀ i : Nat, (i : Int) < ((finalWorld callsAB).deref 1).numInputs →
                inputs i = (((finalWorld callsAB).deref 1).bufferInfos i).buffers 1
                  ∧ (((finalWorld callsAB).deref 1).bufferInfos i).buffers 1
                      = (okEnv 0 18).driverBuffers i 1
                  ∧ (((finalWorld callsAB).deref 1).bufferInfos i).isInput = ASIOTrue
                  ∧ (((finalWorld callsAB).deref 1).bufferInfos i).channelNum = (i : Int))
            ∧ (∀ j : Nat, (j : Int) < ((finalWorld callsAB).deref 1).numOutputs →
                outputs j
                    = (((finalWorld callsAB).deref 1).bufferInfos
                        (((finalWorld callsAB).deref 1).numInputs.toNat + j)).buffers 1
                  ∧ (((finalWorld callsAB).deref 1).bufferInfos
                        (((finalWorld callsAB).deref 1).numInputs.toNat + j)).buffers 1
                      = (okEnv 0 18).driverBuffers
                          (((finalWorld callsAB).deref 1).numInputs.toNat + j) 1
                  ∧ (((finalWorld callsAB).deref 1).bufferInfos
                        (((finalWorld callsAB).deref 1).numInputs.toNat + j)).isInput = ASIOFalse
                  ∧ (((finalWorld callsAB).deref 1).bufferInfos
                        (((finalWorld callsAB).deref 1).numInputs.toNat + j)).channelNum
                      = (j : Int))) :=
  ⟨rfl, by decide, by decide, rfl, rfl, rfl, rfl,
    C17_event_tables_are_the_drivers_buffers sdkTimeFlagBits 0 100 (okEnv 0 18) World.initial
      (finalWorld callsA) (finalWorld callsAB) 1 [Call.openDevice 1 101 (okEnv 1 18)]
      ((finalWorld callsAB).deref 1) sampleTime 1 0 rfl (by decide) (by decide) rfl rfl⟩

end CASIOClient
